import Mathlib

set_option maxHeartbeats 1000000
set_option maxRecDepth 4000

/-!
Verification of the msh-cli AI metadata layer.

This file gives a shallow embedding of the Python modules
`src/msh/ai/metadata.py`, `src/msh/ai/context_pack.py` and the
`_generate_msh_yaml` helper of `src/msh/commands/discover.py`, and proves
properties of the embedded functions.

Python values are modelled by the inductive `PyVal`; dictionaries are
association lists with string keys (every dictionary manipulated by the
embedded code is string-keyed).  Fallible operations (attribute errors,
type errors, key errors raised by the interpreter) are modelled in the
`Except String` monad.
-/

/-- Model of a Python value as manipulated by the embedded modules. -/
inductive PyVal where
  | none
  | bool (b : Bool)
  | int (n : Int)
  | str (s : String)
  | list (xs : List PyVal)
  | dict (kvs : List (String × PyVal))
  deriving Repr

namespace PyVal

/-- First-match association-list lookup, modelling Python dict key lookup. -/
def lookupKey : List (String × PyVal) → String → Option PyVal
  | [], _ => Option.none
  | (k, v) :: rest, key => if k = key then some v else lookupKey rest key

/-- Python `d.get(key, default)`: dictionaries return the stored value or
the default; any other receiver raises `AttributeError`. -/
def pyGetD : PyVal → String → PyVal → Except String PyVal
  | .dict kvs, k, d => .ok ((lookupKey kvs k).getD d)
  | _, _, _ => .error "AttributeError"

/-- Python `d[key]` subscript on a dictionary: `KeyError` when the key is
absent, `TypeError` on a non-dictionary receiver. -/
def pySub : PyVal → String → Except String PyVal
  | .dict kvs, k =>
    match lookupKey kvs k with
    | some v => .ok v
    | Option.none => .error "KeyError"
  | _, _ => .error "TypeError"

/-- Python dictionary item assignment `d[key] = v`: replaces the value in
place when the key exists, appends otherwise; `TypeError` on a
non-dictionary receiver. -/
def setKey : List (String × PyVal) → String → PyVal → List (String × PyVal)
  | [], key, v => [(key, v)]
  | (k, w) :: rest, key, v =>
    if k = key then (k, v) :: rest else (k, w) :: setKey rest key v

/-- Item assignment lifted to `PyVal`. -/
def pySet : PyVal → String → PyVal → Except String PyVal
  | .dict kvs, k, v => .ok (.dict (setKey kvs k v))
  | _, _, _ => .error "TypeError"

/-- Python truthiness. -/
def truthy : PyVal → Bool
  | .none => false
  | .bool b => b
  | .int n => n != 0
  | .str s => s != ""
  | .list xs => !xs.isEmpty
  | .dict kvs => !kvs.isEmpty

/-- Python iteration: lists yield their elements, strings their characters
(as one-character strings), dictionaries their keys; everything else
raises `TypeError`. -/
def pyIter : PyVal → Except String (List PyVal)
  | .list xs => .ok xs
  | .str s => .ok (s.data.map fun c => .str (String.singleton c))
  | .dict kvs => .ok (kvs.map fun kv => .str kv.1)
  | _ => .error "TypeError"

/-- Python prefix slice `v[:n]` for lists and strings; `TypeError`
otherwise. -/
def pyTake : Nat → PyVal → Except String PyVal
  | n, .list xs => .ok (.list (xs.take n))
  | n, .str s => .ok (.str (s.take n))
  | _, _ => .error "TypeError"

/-- Python `len` for sized values; `TypeError` otherwise. -/
def pyLen : PyVal → Except String Nat
  | .list xs => .ok xs.length
  | .str s => .ok s.length
  | .dict kvs => .ok kvs.length
  | _ => .error "TypeError"

/-- Python `+` restricted to the shapes the embedded code concatenates. -/
def pyAdd : PyVal → PyVal → Except String PyVal
  | .str a, .str b => .ok (.str (a ++ b))
  | .list a, .list b => .ok (.list (a ++ b))
  | _, _ => .error "TypeError"

/-- Key lookup on a `PyVal`, yielding `none` on a non-dictionary. -/
def dictLookup : PyVal → String → Option PyVal
  | .dict kvs, k => lookupKey kvs k
  | _, _ => Option.none

/-- Python hashability: lists and dictionaries are unhashable. -/
def hashable : PyVal → Bool
  | .list _ => false
  | .dict _ => false
  | _ => true

end PyVal

mutual

/-- Python equality as used by the embedded code.  Booleans compare equal
to the corresponding integers; containers compare elementwise; the
embedded code only ever compares identifier strings. -/
def PyVal.pyEq : PyVal → PyVal → Bool
  | .none, .none => true
  | .bool a, .bool b => a == b
  | .bool a, .int b => (if a then (1 : Int) else 0) == b
  | .int a, .bool b => a == (if b then (1 : Int) else 0)
  | .int a, .int b => a == b
  | .str a, .str b => a == b
  | .list a, .list b => PyVal.pyEqList a b
  | .dict a, .dict b => PyVal.pyEqKvs a b
  | _, _ => false

/-- Elementwise Python equality of lists. -/
def PyVal.pyEqList : List PyVal → List PyVal → Bool
  | [], [] => true
  | x :: xs, y :: ys => PyVal.pyEq x y && PyVal.pyEqList xs ys
  | _, _ => false

/-- Pairwise Python equality of association lists. -/
def PyVal.pyEqKvs : List (String × PyVal) → List (String × PyVal) → Bool
  | [], [] => true
  | (k, v) :: xs, (l, w) :: ys => k == l && PyVal.pyEq v w && PyVal.pyEqKvs xs ys
  | _, _ => false

end

namespace PyVal

/-- Python `set(xs)` construction: every element must be hashable;
duplicates (under `pyEq`) collapse. -/
def pySetOf (xs : List PyVal) : Except String (List PyVal) :=
  xs.foldlM
    (fun acc x =>
      if hashable x then
        .ok (if acc.any (fun y => pyEq y x) then acc else acc ++ [x])
      else .error "TypeError")
    []

/-- Python `x in s` membership test against a set; unhashable `x` raises
`TypeError`. -/
def pyMem (x : PyVal) (s : List PyVal) : Except String Bool :=
  if hashable x then .ok (s.any fun y => pyEq y x) else .error "TypeError"

end PyVal

open PyVal

namespace Metadata

/-- Translation of the per-column loop body of
`MetadataExtractor._extract_schema` (src/msh/ai/metadata.py, lines
97-109): a mapping-shaped column appends a record with the declared name,
type and description (defaults: empty name, unknown type, empty
description), a string column appends a record named by that string with
unknown type, and any other shape appends nothing. -/
def colLoopStep (acc : List PyVal) (col : PyVal) : List PyVal :=
  match col with
  | .dict kvs => acc ++ [.dict
      [("name", (lookupKey kvs "name").getD (.str "")),
       ("type", (lookupKey kvs "type").getD (.str "unknown")),
       ("description", (lookupKey kvs "description").getD (.str ""))]]
  | .str s => acc ++ [.dict
      [("name", .str s), ("type", .str "unknown"), ("description", .str "")]]
  | _ => acc

/-- Column record built from an inferred transform column reference
(src/msh/ai/metadata.py, lines 113-118). -/
def inferredCol (c : PyVal) : PyVal :=
  .dict [("name", c), ("type", .str "unknown"), ("description", .str "")]

/-- Loop body of the inference loop of `_extract_schema`
(src/msh/ai/metadata.py, lines 113-118): each referenced column name is
appended with unknown type and empty description. -/
def inferLoopStep (acc : List PyVal) (c : PyVal) : List PyVal :=
  acc ++ [inferredCol c]

/-- Translation of the ingest-columns section of
`MetadataExtractor._extract_schema` (src/msh/ai/metadata.py, lines
91-109): when the ingest block is a mapping with a truthy columns value,
that value is iterated and each column appended per `colLoopStep`;
otherwise no columns are collected. -/
def ingestColumns (ingest_block : PyVal) : Except String (List PyVal) :=
  match ingest_block with
  | .dict ikvs =>
    let ingest_columns := (lookupKey ikvs "columns").getD .none
    if truthy ingest_columns then do
      let cols ← pyIter ingest_columns
      pure (cols.foldl colLoopStep [])
    else pure []
  | _ => pure ([] : List PyVal)

/-- Translation of the inference section of
`MetadataExtractor._extract_schema` (src/msh/ai/metadata.py, lines
111-118): when no ingest columns were collected and the referenced
column list is truthy, the first twenty references are appended per
`inferLoopStep`. -/
def inferColumns (fromIngest : List PyVal) (columns_referenced : PyVal) :
    Except String (List PyVal) :=
  if fromIngest.isEmpty && truthy columns_referenced then do
    let sliced ← pyTake 20 columns_referenced
    let refs ← pyIter sliced
    pure (refs.foldl inferLoopStep fromIngest)
  else pure fromIngest

/-- Translation of `MetadataExtractor._extract_schema`
(src/msh/ai/metadata.py, lines 77-120). -/
def extract_schema (asset_data ast : PyVal) : Except String PyVal := do
  let blocks ← pyGetD ast "blocks" (.dict [])
  let transform_block ← pyGetD blocks "transform" (.dict [])
  let columns_referenced ← pyGetD transform_block "columns_referenced" (.list [])
  let ingest_block ← pyGetD asset_data "ingest" (.dict [])
  let fromIngest ← ingestColumns ingest_block
  let cols ← inferColumns fromIngest columns_referenced
  pure (.dict [("columns", .list cols)])

/-- Translation of `MetadataExtractor._extract_lineage`
(src/msh/ai/metadata.py, lines 122-134).  The `project_root` argument of
the Python method is unused by its body and omitted here. -/
def extract_lineage (ast : PyVal) : Except String PyVal := do
  let blocks ← pyGetD ast "blocks" (.dict [])
  let transform_block ← pyGetD blocks "transform" (.dict [])
  let dependencies ← pyGetD transform_block "dependencies" (.list [])
  pure (.dict [("upstream", dependencies), ("downstream", .list [])])

/-- Translation of the per-test loop body of
`MetadataExtractor._extract_tests` (src/msh/ai/metadata.py, lines
144-158): a mapping-shaped test appends a record with the declared
name/type/config/description and defaults, a string test appends a
record named by that string, any other shape appends nothing. -/
def testLoopStep (acc : List PyVal) (test : PyVal) : List PyVal :=
  match test with
  | .dict kvs => acc ++ [.dict
      [("name", (lookupKey kvs "name").getD (.str "unnamed_test")),
       ("type", (lookupKey kvs "type").getD (.str "unknown")),
       ("config", (lookupKey kvs "config").getD (.dict [])),
       ("description", (lookupKey kvs "description").getD (.str ""))]]
  | .str s => acc ++ [.dict
      [("name", .str s), ("type", .str "unknown"),
       ("config", .dict []), ("description", .str "")]]
  | _ => acc

/-- Translation of `MetadataExtractor._extract_tests`
(src/msh/ai/metadata.py, lines 136-160). -/
def extract_tests (asset_data : PyVal) : Except String PyVal := do
  let tests ← pyGetD asset_data "tests" (.list [])
  match tests with
  | .list ts => pure (.list (ts.foldl testLoopStep []))
  | _ => pure (.list [])

/-- Translation of `MetadataExtractor.extract_asset_metadata`
(src/msh/ai/metadata.py, lines 31-75).  The parser and the AST generator
live outside the extracted sources; their outputs (`asset_data`,
`content_hash`, `ast`) are taken as inputs here, and the resulting record
is returned. -/
def extract_asset_metadata (asset_data content_hash ast : PyVal) :
    Except String PyVal := do
  let schema ← extract_schema asset_data ast
  let lineage ← extract_lineage ast
  let tests ← extract_tests asset_data
  let idv ← pySub ast "id"
  let pathv ← pySub ast "path"
  let blocksv ← pySub ast "blocks"
  pure (.dict
    [("id", idv), ("path", pathv), ("blocks", blocksv), ("schema", schema),
     ("tests", tests), ("lineage", lineage), ("content_hash", content_hash)])

end Metadata

namespace ContextPack

/-- Translation of the per-asset loop body of
`ContextPackGenerator._optimize_assets` (src/msh/ai/context_pack.py,
lines 150-167).  The Python loop mutates a shallow copy of the asset and
its nested dictionaries; the translation returns the asset as it appears
in the output list: the nested sql update is applied through item
assignment on the blocks/transform dictionaries, and the schema
mutations are visible in the result exactly when the asset itself holds
the mutated schema dictionary under its "schema" key (the `.get` default
is a fresh dictionary that the asset does not reference). -/
def optimizeAsset (asset : PyVal) : Except String PyVal := do
  let blocks ← pyGetD asset "blocks" (.dict [])
  let transform_block ← pyGetD blocks "transform" (.dict [])
  let sql ← pyGetD transform_block "sql" (.str "")
  let slen ← pyLen sql
  let a1 ←
    if slen > 2000 then do
      let sliced ← pyTake 2000 sql
      let newSql ← pyAdd sliced (.str "\n... (truncated)")
      let b ← pySub asset "blocks"
      let t ← pySub b "transform"
      let t1 ← pySet t "sql" newSql
      let b1 ← pySet b "transform" t1
      pySet asset "blocks" b1
    else pure asset
  let schema ← pyGetD a1 "schema" (.dict [])
  let columns ← pyGetD schema "columns" (.list [])
  let clen ← pyLen columns
  if clen > 50 then do
    let cols50 ← pyTake 50 columns
    let schema1 ← pySet schema "columns" cols50
    let schema2 ← pySet schema1 "_truncated" (.bool true)
    let schema3 ← pySet schema2 "_total_columns" (.int clen)
    if (dictLookup a1 "schema").isSome then pySet a1 "schema" schema3
    else pure a1
  else pure a1

/-- Translation of `ContextPackGenerator._optimize_assets`
(src/msh/ai/context_pack.py, lines 142-169). -/
def optimize_assets (assets : PyVal) : Except String PyVal := do
  let items ← pyIter assets
  let optimized ← items.mapM optimizeAsset
  pure (.list optimized)

/-- Translation of `ContextPackGenerator._optimize_tests`
(src/msh/ai/context_pack.py, lines 171-188). -/
def optimize_tests (tests assets : PyVal) : Except String PyVal := do
  let items ← pyIter assets
  let ids ← items.mapM fun a => pyGetD a "id" .none
  let asset_ids ← pySetOf ids
  match tests with
  | .dict tkvs => do
    let out ← tkvs.foldlM
      (fun acc kv => do
        let mem ← pyMem (.str kv.1) asset_ids
        if mem then do
          let tl ← pyGetD kv.2 "tests" (.list [])
          let tl10 ← pyTake 10 tl
          let cnt ← pyGetD kv.2 "count" (.int 0)
          pure (acc ++ [PyVal.dict
            [("asset_id", .str kv.1), ("tests", tl10), ("count", cnt)]])
        else pure acc)
      ([] : List PyVal)
    pure (.list out)
  | _ => .error "AttributeError"

/-- Inputs of `ContextPackGenerator.generate_context_pack` that come from
components outside the extracted sources: the four cached artifacts
returned by the metadata cache loads, the four artifacts the manifest
generator would return, and the glossary terms read from the glossary
file (empty when the file is absent or unreadable, per lines 76-86 of
src/msh/ai/context_pack.py). -/
structure CPEnv where
  cachedManifest : PyVal
  cachedLineage : PyVal
  cachedSchemas : PyVal
  cachedTests : PyVal
  genManifest : PyVal
  genLineage : PyVal
  genSchemas : PyVal
  genTestsIndex : PyVal
  glossaryTerms : List PyVal

/-- Record of which `generate_*` operations a `generate_context_pack`
call invoked, together with the artifact values the call proceeded
with. -/
structure CPCalls where
  calledGenManifest : Bool
  calledGenLineage : Bool
  calledGenSchemas : Bool
  calledGenTestsIndex : Bool
  usedManifest : PyVal
  usedLineage : PyVal
  usedSchemas : PyVal
  usedTestsData : Option PyVal

/-- The load-or-generate pattern of src/msh/ai/context_pack.py lines
49-74: the artifact the call proceeds with is the cached one when it is
truthy, and the generator's output otherwise; the corresponding
`generate_*` operation is invoked exactly when the cached artifact is
falsy, recorded in `CPCalls` as the negated truthiness. -/
def loadOrGen (cached gen : PyVal) : PyVal :=
  if truthy cached then cached else gen

/-- Translation of the optional tests key of the context pack
(src/msh/ai/context_pack.py, lines 127-128): when tests were requested
and the loaded tests mapping is truthy, the optimized tests are stored
under the `tests` key. -/
def addTests (pack0 assets : PyVal) (tests : Option PyVal) :
    Except String PyVal :=
  match tests with
  | some t =>
    if truthy t then do
      let ot ← optimize_tests t assets
      pySet pack0 "tests" ot
    else pure pack0
  | Option.none => pure pack0

/-- Translation of the optional glossary key
(src/msh/ai/context_pack.py, lines 130-131). -/
def addGlossary (pack : PyVal) (gts : List PyVal) : Except String PyVal :=
  if gts.isEmpty then pure pack
  else pySet pack "glossary_terms" (.list gts)

/-- Translation of the optional user_request key
(src/msh/ai/context_pack.py, lines 133-134). -/
def addUserRequest (pack : PyVal) (ur : Option String) :
    Except String PyVal :=
  match ur with
  | some s => if s ≠ "" then pySet pack "user_request" (.str s) else pure pack
  | Option.none => pure pack

/-- Search for the first asset whose "id" equals the requested asset id
(src/msh/ai/context_pack.py, lines 92-96). -/
def findTarget : List PyVal → String → Except String (Option PyVal)
  | [], _ => pure Option.none
  | a :: rest, aid => do
    let idv ← pyGetD a "id" .none
    if pyEq idv (.str aid) then pure (some a) else findTarget rest aid

/-- Translation of the asset-filtering section of
`ContextPackGenerator.generate_context_pack` (src/msh/ai/context_pack.py,
lines 88-118): when a truthy asset id is given, the matching asset plus
its upstream and downstream neighbours are kept (or no asset at all when
the id matches nothing); otherwise the manifest's asset list is used as
is. -/
def selectAssets (assets0 lineage : PyVal) (asset_id : Option String) :
    Except String PyVal :=
  match asset_id with
  | some aid =>
    if aid ≠ "" then do
      let items ← pyIter assets0
      let target? ← findTarget items aid
      match target? with
      | some target => do
          let lin ← pyGetD target "lineage" (.dict [])
          let ups ← pyGetD lin "upstream" (.list [])
          let upsItems ← pyIter ups
          let upstream_ids ← pySetOf upsItems
          let edges ← pyGetD lineage "edges" (.list [])
          let edgeItems ← pyIter edges
          let downstream_ids ← edgeItems.foldlM
            (fun acc edge => do
              let f ← pyGetD edge "from" .none
              if pyEq f (.str aid) then do
                let t ← pyGetD edge "to" .none
                if hashable t then
                  pure (if acc.any (fun y => pyEq y t) then acc
                        else acc ++ [t])
                else .error "TypeError"
              else pure acc)
            ([] : List PyVal)
          let focused ← items.foldlM
            (fun acc a => do
              let idc ← pyGetD a "id" .none
              let mem1 ← pyMem idc upstream_ids
              if mem1 then pure (acc ++ [a])
              else do
                let mem2 ← pyMem idc downstream_ids
                pure (if mem2 then acc ++ [a] else acc))
            ([target] : List PyVal)
          pure (PyVal.list focused)
      | Option.none => pure (PyVal.list [])
    else pure assets0
  | Option.none => pure assets0

/-- Translation of the context-pack assembly of
`ContextPackGenerator.generate_context_pack`
(src/msh/ai/context_pack.py, lines 88-140): asset filtering, asset and
test optimization, and the assembled dictionary with its optional keys
and the trailing metrics and policies fields. -/
def assemblePack (manifest lineage : PyVal) (asset_id : Option String)
    (tests : Option PyVal) (gts : List PyVal) (ur : Option String) :
    Except String PyVal := do
  let assets0 ← pyGetD manifest "assets" (.list [])
  let assets ← selectAssets assets0 lineage asset_id
  let proj ← pyGetD manifest "project" (.dict [])
  let optimized ← optimize_assets assets
  let edges ← pyGetD lineage "edges" (.list [])
  let pack0 := PyVal.dict
    [("project", proj), ("assets", optimized), ("lineage", edges)]
  let pack1 ← addTests pack0 assets tests
  let pack2 ← addGlossary pack1 gts
  let pack3 ← addUserRequest pack2 ur
  let pack4 ← pySet pack3 "metrics" (.list [])
  let pack5 ← pySet pack4 "policies" (.list [])
  pure pack5

/-- Translation of `ContextPackGenerator.generate_context_pack`
(src/msh/ai/context_pack.py, lines 30-140).  The first component records
which generators were invoked and which artifacts were used — these
choices happen before any failure point of the Python body — and the
second component is the resulting context pack in the `Except` monad.
`include_history` is accepted and unused, exactly as in the Python
signature. -/
def generate_context_pack (env : CPEnv) (asset_id : Option String)
    (include_tests : Bool) (include_history : Bool)
    (user_request : Option String) : CPCalls × Except String PyVal :=
  let manifest := loadOrGen env.cachedManifest env.genManifest
  let lineage := loadOrGen env.cachedLineage env.genLineage
  let schemas := loadOrGen env.cachedSchemas env.genSchemas
  let testsData? :=
    if include_tests then some (loadOrGen env.cachedTests env.genTestsIndex)
    else Option.none
  let calls : CPCalls :=
    ⟨!truthy env.cachedManifest, !truthy env.cachedLineage,
     !truthy env.cachedSchemas,
     include_tests && !truthy env.cachedTests,
     manifest, lineage, schemas, testsData?⟩
  (calls, do
    let tests ←
      match testsData? with
      | some td => do
          let t ← pyGetD td "tests" (.dict [])
          pure (some t)
      | Option.none => pure Option.none
    assemblePack manifest lineage asset_id tests env.glossaryTerms
      user_request)

end ContextPack

namespace Discover

/-- Translation of the `required_columns` conditional expression of
`_generate_msh_yaml` (src/msh/commands/discover.py, line 373): the first
ten columns when more than ten are present, otherwise all of them, and
the empty list when the column list is falsy. -/
def requiredColumnsExpr (columns : PyVal) : Except String PyVal :=
  if truthy columns then do
    let n ← pyLen columns
    if n > 10 then pyTake 10 columns else pure columns
  else pure (PyVal.list [])

/-- Translation of `_generate_msh_yaml` (src/msh/commands/discover.py,
lines 336-388), up to the final `yaml.dump` call: the returned value is
the `yaml_content` structure that the Python function serializes.  The
YAML serialization itself is a third-party library call and is not
modelled; the claims concern the fields of the generated document. -/
def generate_msh_yaml (asset_name source_type : String)
    (source_config schema : PyVal) : Except String PyVal := do
  let columns ← pyGetD schema "columns" (.list [])
  let _types ← pyGetD schema "types" (.dict [])
  let ingest_block ←
    if source_type = "rest_api" then do
      let ep ← pySub source_config "endpoint"
      let res ← pyGetD source_config "resource" (.str "data")
      pure (PyVal.dict
        [("type", .str source_type), ("endpoint", ep), ("resource", res)])
    else if source_type = "sql_database" then do
      let cr ← pySub source_config "credentials"
      let tb ← pySub source_config "table"
      pure (PyVal.dict
        [("type", .str source_type), ("credentials", cr), ("table", tb)])
    else pure (PyVal.dict [("type", .str source_type)])
  let required_columns ← requiredColumnsExpr columns
  let contract_block := PyVal.dict
    [("evolution", .str "evolve"), ("enforce_types", .bool true),
     ("required_columns", required_columns)]
  pure (PyVal.dict
    [("name", .str asset_name),
     ("description", .str ("Auto-discovered from " ++ source_type)),
     ("ingest", ingest_block),
     ("contract", contract_block),
     ("transform", .str "SELECT * FROM \x7b\x7b source \x7d\x7d")])

end Discover

/-! ### Helpers for stating claims -/

/-- Length of a list value (zero for non-lists), used to state size facts
about fields of a produced record. -/
def pyListLength : PyVal → Nat
  | .list xs => xs.length
  | _ => 0

/-- Key sequence of a dictionary value, used to state which fields a
produced record carries. -/
def pyDictKeys : PyVal → List String
  | .dict kvs => kvs.map Prod.fst
  | _ => []

/-- Field of the schema dictionary of an asset record. -/
def schemaField (asset : PyVal) (k : String) : Option PyVal :=
  dictLookup ((dictLookup asset "schema").getD .none) k

/-- Nested lookup of the transform sql of an asset record. -/
def transformSql (asset : PyVal) : Option PyVal :=
  (dictLookup asset "blocks").bind fun b =>
    (dictLookup b "transform").bind fun t => dictLookup t "sql"

namespace Metadata

/-- Per-column normal form of the ingest column loop: a mapping-shaped
column is kept with its declared name, type and description (defaults:
empty name, `unknown` type, empty description), a bare string column is
kept under that name with `unknown` type, and any other shape is
dropped.  `colLoopStep` is proved to append exactly according to this
map. -/
def colFromIngest : PyVal → Option PyVal
  | .dict kvs => some (.dict
      [("name", (lookupKey kvs "name").getD (.str "")),
       ("type", (lookupKey kvs "type").getD (.str "unknown")),
       ("description", (lookupKey kvs "description").getD (.str ""))])
  | .str s => some (.dict
      [("name", .str s), ("type", .str "unknown"), ("description", .str "")])
  | _ => Option.none

/-- Per-test normal form of the test loop: a dict-shaped test takes its
declared values with defaults `unnamed_test`, `unknown`, empty config
and empty description for absent fields; a bare string test becomes a
record named by that string with type `unknown`; any other shape
contributes nothing.  `testLoopStep` is proved to append exactly
according to this map. -/
def testRecordSpec : PyVal → Option PyVal
  | .dict kvs => some (.dict
      [("name", (lookupKey kvs "name").getD (.str "unnamed_test")),
       ("type", (lookupKey kvs "type").getD (.str "unknown")),
       ("config", (lookupKey kvs "config").getD (.dict [])),
       ("description", (lookupKey kvs "description").getD (.str ""))])
  | .str s => some (.dict
      [("name", .str s), ("type", .str "unknown"),
       ("config", .dict []), ("description", .str "")])
  | _ => Option.none

/-- Schema column list predicted for a declared ingest column list `cols`
and transform column references `crs`: the declared columns that survive
`colFromIngest` when any do, otherwise the first twenty references, each
with unknown type. -/
def schemaColumnsSpec (cols crs : List PyVal) : List PyVal :=
  let declared := cols.filterMap colFromIngest
  if declared.isEmpty then (crs.take 20).map inferredCol else declared

end Metadata

/-! ### Concrete inputs used by counterexamples and witnesses -/

/-- Sixty distinct string column declarations. -/
def c1cols : List PyVal := (List.range 60).map fun i => .str ("c" ++ toString i)

/-- Asset data whose ingest block declares sixty columns. -/
def c1data : PyVal := .dict [("ingest", .dict [("columns", .list c1cols)])]

/-- Well-formed AST for the sixty-column asset. -/
def c1ast : PyVal := .dict
  [("id", .str "orders"), ("path", .str "models/orders.msh"),
   ("blocks", .dict [("transform", .dict
     [("sql", .str "SELECT 1"), ("dependencies", .list [])])])]

/-- Asset data whose ingest block declares a column list containing a
number. -/
def c2data : PyVal := .dict [("ingest", .dict [("columns", .list [.int 42])])]

/-- AST whose transform references the single column `x`. -/
def c2ast : PyVal := .dict
  [("blocks", .dict [("transform", .dict
     [("columns_referenced", .list [.str "x"])])])]

/-- Asset data well-formed for the amended column-extraction claim: one
mapping column and one bare string column. -/
def c2wdata : PyVal := .dict [("ingest", .dict [("columns", .list
  [.dict [("name", .str "id"), ("type", .str "int")], .str "amount"])])]

/-- AST with a transform column reference, for the amended
column-extraction claim. -/
def c2wast : PyVal := .dict
  [("blocks", .dict [("transform", .dict
     [("columns_referenced", .list [.str "z"])])])]

/-- Asset data declaring one bare string test. -/
def c5data : PyVal := .dict [("tests", .list [.str "not_null"])]

/-- Well-formed AST for the record-shape claim. -/
def c5ast : PyVal := .dict
  [("id", .str "a"), ("path", .str "models/a.msh"), ("blocks", .dict [])]

/-- Environment whose cached manifest holds one asset with id `a`, used
to exercise the empty-string asset id. -/
def c9env : ContextPack.CPEnv :=
  { cachedManifest := .dict
      [("project", .dict [("name", .str "demo")]),
       ("assets", .list [.dict [("id", .str "a")]])],
    cachedLineage := .dict [("edges", .list [])],
    cachedSchemas := .dict [("a", .dict [])],
    cachedTests := .dict [],
    genManifest := .none,
    genLineage := .none,
    genSchemas := .none,
    genTestsIndex := .none,
    glossaryTerms := [] }

/-- Environment used to witness the amended unknown-asset-id claim: the
cached artifacts are all truthy and the requested id matches nothing. -/
def c9wenv : ContextPack.CPEnv :=
  { cachedManifest := .dict
      [("project", .dict [("name", .str "demo")]),
       ("assets", .list [.dict [("id", .str "a")]])],
    cachedLineage := .dict [("edges", .list [])],
    cachedSchemas := .dict [("a", .dict [])],
    cachedTests := .dict [("tests", .dict [("a", .dict [])])],
    genManifest := .none,
    genLineage := .none,
    genSchemas := .none,
    genTestsIndex := .none,
    glossaryTerms := [] }

/-- Environment with a truthy cached manifest and schemas but no cached
lineage or tests, used to witness the cache-or-generate claim. -/
def c3env : ContextPack.CPEnv :=
  { cachedManifest := .dict [("assets", .list [])],
    cachedLineage := .none,
    cachedSchemas := .dict [("a", .dict [])],
    cachedTests := .none,
    genManifest := .dict [],
    genLineage := .dict [("edges", .list [])],
    genSchemas := .dict [],
    genTestsIndex := .dict [("tests", .dict [])],
    glossaryTerms := [] }

/-! ### Basic lemmas about the embedding -/

theorem ok_bind {α β : Type} (a : α) (f : α → Except String β) :
    (Except.ok a >>= f) = f a := rfl

theorem pure_eq_ok {α : Type} (a : α) :
    (pure a : Except String α) = Except.ok a := rfl

/-- A fold whose step appends at most one element per item equals the
filter-map of the per-item normal form, prefixed by the accumulator. -/
theorem foldl_append_eq_filterMap (f : PyVal → Option PyVal)
    (step : List PyVal → PyVal → List PyVal)
    (hstep : ∀ acc x, step acc x =
      match f x with
      | some y => acc ++ [y]
      | Option.none => acc) :
    ∀ (l acc : List PyVal), l.foldl step acc = acc ++ l.filterMap f := by
  intro l
  induction l with
  | nil => intro acc; simp
  | cons x xs ih =>
    intro acc
    rw [List.foldl_cons, hstep, List.filterMap_cons]
    cases hfx : f x with
    | none => simpa using ih acc
    | some y => rw [ih (acc ++ [y])]; simp

/-- The ingest column loop step appends according to `colFromIngest`. -/
theorem colLoopStep_eq (acc : List PyVal) (x : PyVal) :
    Metadata.colLoopStep acc x =
      match Metadata.colFromIngest x with
      | some y => acc ++ [y]
      | Option.none => acc := by
  cases x <;> rfl

/-- The test loop step appends according to `testRecordSpec`. -/
theorem testLoopStep_eq (acc : List PyVal) (x : PyVal) :
    Metadata.testLoopStep acc x =
      match Metadata.testRecordSpec x with
      | some y => acc ++ [y]
      | Option.none => acc := by
  cases x <;> rfl

/-- The inference loop step appends according to `inferredCol`. -/
theorem inferLoopStep_eq (acc : List PyVal) (x : PyVal) :
    Metadata.inferLoopStep acc x =
      match some (Metadata.inferredCol x) with
      | some y => acc ++ [y]
      | Option.none => acc := rfl

/-- Assigning a key makes it present with the assigned value. -/
theorem lookupKey_setKey_self (kvs : List (String × PyVal)) (k : String)
    (v : PyVal) : lookupKey (setKey kvs k v) k = some v := by
  induction kvs with
  | nil => simp [setKey, lookupKey]
  | cons kv rest ih =>
    by_cases h : kv.1 = k
    · simp [setKey, lookupKey, h]
    · simp [setKey, lookupKey, h, ih]

/-- Assigning one key leaves the lookup of any other key unchanged. -/
theorem lookupKey_setKey_ne (kvs : List (String × PyVal)) (k k2 : String)
    (v : PyVal) (h : k2 ≠ k) :
    lookupKey (setKey kvs k v) k2 = lookupKey kvs k2 := by
  induction kvs with
  | nil => simp [setKey, lookupKey, h, Ne.symm h]
  | cons kv rest ih =>
    by_cases hk : kv.1 = k
    · simp [setKey, lookupKey, hk, h, Ne.symm h]
    · simp [setKey, lookupKey, hk, ih]

/-- A filter-map that succeeds everywhere preserves length. -/
theorem length_filterMap_of_isSome (f : PyVal → Option PyVal) :
    ∀ (l : List PyVal), (∀ x ∈ l, (f x).isSome) →
      (l.filterMap f).length = l.length := by
  intro l
  induction l with
  | nil => intro _; simp
  | cons x xs ih =>
    intro h
    rw [List.filterMap_cons]
    cases hfx : f x with
    | none =>
      have := h x (List.mem_cons_self x xs)
      rw [hfx] at this
      simp at this
    | some y =>
      simp only [List.length_cons]
      rw [← ih fun z hz => h z (List.mem_cons_of_mem x hz)]


/-- Shape of the record `extract_asset_metadata` produces, used to state
the truncation pipeline claim. -/
def assetRecord (iv pv : PyVal) (bkvs : List (String × PyVal))
    (L : List PyVal) (tv lv ch : PyVal) : List (String × PyVal) :=
  [("id", iv), ("path", pv), ("blocks", .dict bkvs),
   ("schema", .dict [("columns", .list L)]), ("tests", tv),
   ("lineage", lv), ("content_hash", ch)]

theorem lookupKey_nil (k : String) : lookupKey [] k = Option.none := rfl

theorem lookupKey_cons_self (k : String) (v : PyVal)
    (rest : List (String × PyVal)) :
    lookupKey ((k, v) :: rest) k = some v := by
  simp [lookupKey]

theorem pyGetD_dict (kvs : List (String × PyVal)) (k : String) (d : PyVal) :
    pyGetD (.dict kvs) k d = .ok ((lookupKey kvs k).getD d) := rfl

theorem pySub_dict_some (kvs : List (String × PyVal)) (k : String)
    (v : PyVal) (h : lookupKey kvs k = some v) :
    pySub (.dict kvs) k = .ok v := by
  simp [pySub, h]

theorem pySet_dict (kvs : List (String × PyVal)) (k : String) (v : PyVal) :
    pySet (.dict kvs) k v = .ok (.dict (setKey kvs k v)) := rfl

theorem pyIter_list (xs : List PyVal) : pyIter (.list xs) = .ok xs := rfl

theorem pyLen_list (xs : List PyVal) : pyLen (.list xs) = .ok xs.length := rfl

theorem pyLen_str (s : String) : pyLen (.str s) = .ok s.length := rfl

theorem pyTake_list (n : Nat) (xs : List PyVal) :
    pyTake n (.list xs) = .ok (.list (xs.take n)) := rfl

theorem pyTake_str (n : Nat) (s : String) :
    pyTake n (.str s) = .ok (.str (s.take n)) := rfl

theorem pyAdd_str (a b : String) :
    pyAdd (.str a) (.str b) = .ok (.str (a ++ b)) := rfl

theorem dictLookup_dict (kvs : List (String × PyVal)) (k : String) :
    dictLookup (.dict kvs) k = lookupKey kvs k := rfl

theorem lookupKey_setKey_blocks_schema (kvs : List (String × PyVal))
    (v : PyVal) :
    lookupKey (setKey kvs "schema" v) "blocks" = lookupKey kvs "blocks" :=
  lookupKey_setKey_ne _ _ _ _ (by decide)

theorem lookupKey_setKey_schema_blocks (kvs : List (String × PyVal))
    (v : PyVal) :
    lookupKey (setKey kvs "blocks" v) "schema" = lookupKey kvs "schema" :=
  lookupKey_setKey_ne _ _ _ _ (by decide)

/-! ### Claim theorems -/

/-- C8: for every AST whose blocks and transform entries are dictionaries
and whose transform block carries a `dependencies` entry, the per-asset
lineage extracted by `_extract_lineage` has `upstream` equal to that
dependencies value unchanged (same elements, same order) and
`downstream` equal to the empty list; downstream edges are never
populated at this level. -/
theorem C8_lineage_upstream_unchanged_downstream_empty
    (astkvs bkvs tkvs : List (String × PyVal)) (deps : PyVal)
    (hb : lookupKey astkvs "blocks" = some (.dict bkvs))
    (ht : lookupKey bkvs "transform" = some (.dict tkvs))
    (hd : lookupKey tkvs "dependencies" = some deps) :
    Metadata.extract_lineage (.dict astkvs) =
      .ok (.dict [("upstream", deps), ("downstream", .list [])]) := by
  simp [Metadata.extract_lineage, pyGetD, hb, ht, hd, ok_bind]

/-- Witness for C8 at a concrete AST with two dependencies. -/
theorem C8_lineage_witness :
    Metadata.extract_lineage (.dict
      [("id", .str "a"), ("blocks", .dict [("transform", .dict
        [("dependencies", .list [.str "up1", .str "up2"])])])]) =
      .ok (.dict [("upstream", .list [.str "up1", .str "up2"]),
                  ("downstream", .list [])]) :=
  C8_lineage_upstream_unchanged_downstream_empty _ _ _ _ rfl rfl rfl

/-- C6: a list-shaped tests block is mapped elementwise by
`testRecordSpec` (dict-shaped tests keep their declared values with
defaults `unnamed_test`, `unknown`, empty config, empty description;
bare string tests become records named by that string with unknown
type); a tests block that is not a list — or an absent one — yields the
empty test list; and every extracted test definition is a record with
exactly the fields name, type, config and description. -/
theorem C6_test_records (akvs : List (String × PyVal)) :
    (∀ ts, lookupKey akvs "tests" = some (.list ts) →
      Metadata.extract_tests (.dict akvs) =
        .ok (.list (ts.filterMap Metadata.testRecordSpec))) ∧
    (∀ v, lookupKey akvs "tests" = some v → (∀ ts, v ≠ .list ts) →
      Metadata.extract_tests (.dict akvs) = .ok (.list [])) ∧
    (lookupKey akvs "tests" = Option.none →
      Metadata.extract_tests (.dict akvs) = .ok (.list [])) ∧
    (∀ l, Metadata.extract_tests (.dict akvs) = .ok (.list l) →
      ∀ e ∈ l, ∃ n t c d, e = PyVal.dict
        [("name", n), ("type", t), ("config", c), ("description", d)]) := by
  have hfold := foldl_append_eq_filterMap Metadata.testRecordSpec
    Metadata.testLoopStep testLoopStep_eq
  have hshape : ∀ (ts : List PyVal) (e : PyVal),
      e ∈ ts.filterMap Metadata.testRecordSpec →
      ∃ n t c d, e = PyVal.dict
        [("name", n), ("type", t), ("config", c), ("description", d)] := by
    intro ts e he
    rw [List.mem_filterMap] at he
    obtain ⟨x, _, hx⟩ := he
    cases x with
    | dict kvs =>
      simp [Metadata.testRecordSpec] at hx
      exact ⟨_, _, _, _, hx.symm⟩
    | str s =>
      simp [Metadata.testRecordSpec] at hx
      exact ⟨_, _, _, _, hx.symm⟩
    | none => simp [Metadata.testRecordSpec] at hx
    | bool b => simp [Metadata.testRecordSpec] at hx
    | int n => simp [Metadata.testRecordSpec] at hx
    | list xs => simp [Metadata.testRecordSpec] at hx
  refine ⟨?_, ?_, ?_, ?_⟩
  · intro ts h
    simp [Metadata.extract_tests, pyGetD, h, ok_bind, pure_eq_ok, hfold]
  · intro v h hne
    cases v with
    | list ts => exact absurd rfl (hne ts)
    | none => simp [Metadata.extract_tests, pyGetD, h, ok_bind, pure_eq_ok]
    | bool b => simp [Metadata.extract_tests, pyGetD, h, ok_bind, pure_eq_ok]
    | int n => simp [Metadata.extract_tests, pyGetD, h, ok_bind, pure_eq_ok]
    | str s => simp [Metadata.extract_tests, pyGetD, h, ok_bind, pure_eq_ok]
    | dict kvs => simp [Metadata.extract_tests, pyGetD, h, ok_bind, pure_eq_ok]
  · intro h
    simp [Metadata.extract_tests, pyGetD, h, ok_bind, pure_eq_ok]
  · intro l hl e he
    cases hv : lookupKey akvs "tests" with
    | none =>
      simp [Metadata.extract_tests, pyGetD, hv, ok_bind, pure_eq_ok] at hl
      subst hl
      simp at he
    | some v =>
      cases v with
      | list ts =>
        simp [Metadata.extract_tests, pyGetD, hv, ok_bind, pure_eq_ok,
          hfold] at hl
        subst hl
        exact hshape ts e he
      | none =>
        simp [Metadata.extract_tests, pyGetD, hv, ok_bind, pure_eq_ok] at hl
        subst hl; simp at he
      | bool b =>
        simp [Metadata.extract_tests, pyGetD, hv, ok_bind, pure_eq_ok] at hl
        subst hl; simp at he
      | int n =>
        simp [Metadata.extract_tests, pyGetD, hv, ok_bind, pure_eq_ok] at hl
        subst hl; simp at he
      | str s =>
        simp [Metadata.extract_tests, pyGetD, hv, ok_bind, pure_eq_ok] at hl
        subst hl; simp at he
      | dict kvs =>
        simp [Metadata.extract_tests, pyGetD, hv, ok_bind, pure_eq_ok] at hl
        subst hl; simp at he

/-- Witness for C6: a dict test with only a name, a bare string test and
a numeric entry produce exactly two fully defaulted records. -/
theorem C6_test_records_witness :
    Metadata.extract_tests (.dict [("tests", .list
      [.dict [("name", .str "t1")], .str "t2", .int 7])]) =
      .ok (.list
        [.dict [("name", .str "t1"), ("type", .str "unknown"),
                ("config", .dict []), ("description", .str "")],
         .dict [("name", .str "t2"), ("type", .str "unknown"),
                ("config", .dict []), ("description", .str "")]]) :=
  (C6_test_records [("tests", .list
      [.dict [("name", .str "t1")], .str "t2", .int 7])]).1
    [.dict [("name", .str "t1")], .str "t2", .int 7] rfl

/-- C10: for every asset record whose blocks and transform entries are
dictionaries holding a string sql, and whose schema entry (when present)
is a dictionary with a list-shaped (or absent) columns entry, the
context-pack copy produced by `optimizeAsset` carries the sql unchanged
when it has at most 2000 characters, and its first 2000 characters
followed by the truncation marker otherwise. -/
theorem C10_sql_truncation (akvs bkvs tkvs : List (String × PyVal))
    (s : String)
    (hb : lookupKey akvs "blocks" = some (.dict bkvs))
    (ht : lookupKey bkvs "transform" = some (.dict tkvs))
    (hs : lookupKey tkvs "sql" = some (.str s))
    (hschema : lookupKey akvs "schema" = Option.none ∨
      ∃ skvs, lookupKey akvs "schema" = some (.dict skvs) ∧
        (lookupKey skvs "columns" = Option.none ∨
         ∃ xs, lookupKey skvs "columns" = some (.list xs))) :
    ∃ r, ContextPack.optimizeAsset (.dict akvs) = .ok r ∧
      transformSql r = some (.str
        (if 2000 < s.length then s.take 2000 ++ "\n... (truncated)"
         else s)) := by
  cases hres : ContextPack.optimizeAsset (.dict akvs) with
  | error e =>
    exfalso
    rcases hschema with hnone | ⟨skvs, hsk, hcols⟩
    · by_cases hlen : 2000 < s.length
      all_goals
        simp only [ContextPack.optimizeAsset, pyGetD_dict, pySet_dict, pyTake_list,
            pyTake_str, pyLen_str, pyLen_list, pyAdd_str, ok_bind, pure_eq_ok,
            Option.getD_some, Option.getD_none, dictLookup_dict,
            Option.isSome_some, Option.isSome_none, Except.ok.injEq,
            lookupKey_nil, List.length_nil, Nat.not_lt_zero,
            if_true, if_false, Bool.false_eq_true,
            lookupKey_setKey_schema_blocks, hb, ht, hs,
            pySub_dict_some _ _ _ hb, pySub_dict_some _ _ _ ht, hnone, hlen] at hres
      all_goals exact Except.noConfusion hres
    · rcases hcols with hcnone | ⟨xs, hcs⟩
      · by_cases hlen : 2000 < s.length
        all_goals
          simp only [ContextPack.optimizeAsset, pyGetD_dict, pySet_dict, pyTake_list,
            pyTake_str, pyLen_str, pyLen_list, pyAdd_str, ok_bind, pure_eq_ok,
            Option.getD_some, Option.getD_none, dictLookup_dict,
            Option.isSome_some, Option.isSome_none, Except.ok.injEq,
            lookupKey_nil, List.length_nil, Nat.not_lt_zero,
            if_true, if_false, Bool.false_eq_true,
            lookupKey_setKey_schema_blocks, hb, ht, hs,
            pySub_dict_some _ _ _ hb, pySub_dict_some _ _ _ ht, hsk, hcnone, hlen] at hres
        all_goals exact Except.noConfusion hres
      · by_cases hlen : 2000 < s.length <;> by_cases hxl : 50 < xs.length
        all_goals
          simp only [ContextPack.optimizeAsset, pyGetD_dict, pySet_dict, pyTake_list,
            pyTake_str, pyLen_str, pyLen_list, pyAdd_str, ok_bind, pure_eq_ok,
            Option.getD_some, Option.getD_none, dictLookup_dict,
            Option.isSome_some, Option.isSome_none, Except.ok.injEq,
            lookupKey_nil, List.length_nil, Nat.not_lt_zero,
            if_true, if_false, Bool.false_eq_true,
            lookupKey_setKey_schema_blocks, hb, ht, hs,
            pySub_dict_some _ _ _ hb, pySub_dict_some _ _ _ ht, hsk, hcs, hlen, hxl] at hres
        all_goals exact Except.noConfusion hres
  | ok r =>
    refine ⟨r, rfl, ?_⟩
    rcases hschema with hnone | ⟨skvs, hsk, hcols⟩
    · by_cases hlen : 2000 < s.length
      all_goals
        simp only [ContextPack.optimizeAsset, pyGetD_dict, pySet_dict, pyTake_list,
            pyTake_str, pyLen_str, pyLen_list, pyAdd_str, ok_bind, pure_eq_ok,
            Option.getD_some, Option.getD_none, dictLookup_dict,
            Option.isSome_some, Option.isSome_none, Except.ok.injEq,
            lookupKey_nil, List.length_nil, Nat.not_lt_zero,
            if_true, if_false, Bool.false_eq_true,
            lookupKey_setKey_schema_blocks, hb, ht, hs,
            pySub_dict_some _ _ _ hb, pySub_dict_some _ _ _ ht, hnone, hlen] at hres
      all_goals subst hres
      all_goals simp only [transformSql, dictLookup_dict, Option.some_bind,
            lookupKey_setKey_self, lookupKey_setKey_blocks_schema,
            hb, ht, hs, hlen, if_true, if_false]
    · rcases hcols with hcnone | ⟨xs, hcs⟩
      · by_cases hlen : 2000 < s.length
        all_goals
          simp only [ContextPack.optimizeAsset, pyGetD_dict, pySet_dict, pyTake_list,
            pyTake_str, pyLen_str, pyLen_list, pyAdd_str, ok_bind, pure_eq_ok,
            Option.getD_some, Option.getD_none, dictLookup_dict,
            Option.isSome_some, Option.isSome_none, Except.ok.injEq,
            lookupKey_nil, List.length_nil, Nat.not_lt_zero,
            if_true, if_false, Bool.false_eq_true,
            lookupKey_setKey_schema_blocks, hb, ht, hs,
            pySub_dict_some _ _ _ hb, pySub_dict_some _ _ _ ht, hsk, hcnone, hlen] at hres
        all_goals subst hres
        all_goals simp only [transformSql, dictLookup_dict, Option.some_bind,
            lookupKey_setKey_self, lookupKey_setKey_blocks_schema,
            hb, ht, hs, hlen, if_true, if_false]
      · by_cases hlen : 2000 < s.length <;> by_cases hxl : 50 < xs.length
        all_goals
          simp only [ContextPack.optimizeAsset, pyGetD_dict, pySet_dict, pyTake_list,
            pyTake_str, pyLen_str, pyLen_list, pyAdd_str, ok_bind, pure_eq_ok,
            Option.getD_some, Option.getD_none, dictLookup_dict,
            Option.isSome_some, Option.isSome_none, Except.ok.injEq,
            lookupKey_nil, List.length_nil, Nat.not_lt_zero,
            if_true, if_false, Bool.false_eq_true,
            lookupKey_setKey_schema_blocks, hb, ht, hs,
            pySub_dict_some _ _ _ hb, pySub_dict_some _ _ _ ht, hsk, hcs, hlen, hxl] at hres
        all_goals subst hres
        all_goals simp only [transformSql, dictLookup_dict, Option.some_bind,
            lookupKey_setKey_self, lookupKey_setKey_blocks_schema,
            hb, ht, hs, hlen, if_true, if_false]

/-- Witness for C10 at a concrete asset with a short sql. -/
theorem C10_sql_truncation_witness :
    ∃ r, ContextPack.optimizeAsset (.dict
      [("blocks", .dict [("transform", .dict
         [("sql", .str "SELECT 1")])])]) = .ok r ∧
      transformSql r = some (.str
        (if 2000 < ("SELECT 1" : String).length then
          ("SELECT 1" : String).take 2000 ++ "\n... (truncated)"
         else "SELECT 1")) :=
  C10_sql_truncation
    [("blocks", .dict [("transform", .dict [("sql", .str "SELECT 1")])])]
    [("transform", .dict [("sql", .str "SELECT 1")])]
    [("sql", .str "SELECT 1")] "SELECT 1" rfl rfl rfl (Or.inl rfl)

/-- C7: for a discovered REST or SQL source — whose source configuration
carries the keys the discover flow fills in (endpoint for REST,
credentials and table for SQL) — and a probed schema whose columns entry
is a list or absent, the generated document carries the identifying
`name` field and the named blocks `ingest` (typed with the source
configuration), `contract` and `transform` (a query text), conforming to
the asset definition file format. -/
theorem C7_discovered_document (asset_name source_type : String)
    (ckvs skvs : List (String × PyVal))
    (hst : source_type = "rest_api" ∨ source_type = "sql_database")
    (hrest : source_type = "rest_api" →
      ∃ ep, lookupKey ckvs "endpoint" = some ep)
    (hsqldb : source_type = "sql_database" →
      (∃ cr, lookupKey ckvs "credentials" = some cr) ∧
      (∃ tb, lookupKey ckvs "table" = some tb))
    (hcols : lookupKey skvs "columns" = Option.none ∨
      ∃ xs, lookupKey skvs "columns" = some (.list xs)) :
    ∃ d, Discover.generate_msh_yaml asset_name source_type
        (.dict ckvs) (.dict skvs) = .ok d ∧
      dictLookup d "name" = some (.str asset_name) ∧
      (∃ ing, dictLookup d "ingest" = some ing ∧
        dictLookup ing "type" = some (.str source_type)) ∧
      (dictLookup d "contract").isSome ∧
      (∃ q, dictLookup d "transform" = some (.str q)) := by
  have hreq : ∃ rc, Discover.requiredColumnsExpr
      ((lookupKey skvs "columns").getD (.list [])) = .ok rc := by
    rcases hcols with h | ⟨xs, h⟩
    · exact ⟨.list [], by simp [h, Discover.requiredColumnsExpr, truthy, pure_eq_ok]⟩
    · rw [h, Option.getD_some]
      by_cases hxe : xs.isEmpty
      · exact ⟨.list [], by
          simp [Discover.requiredColumnsExpr, truthy, hxe, pure_eq_ok]⟩
      · by_cases h10 : 10 < xs.length
        · exact ⟨.list (xs.take 10), by
            simp [Discover.requiredColumnsExpr, truthy, hxe, h10,
              pyLen_list, pyTake_list, ok_bind, pure_eq_ok]⟩
        · exact ⟨.list xs, by
            simp [Discover.requiredColumnsExpr, truthy, hxe, h10,
              pyLen_list, ok_bind, pure_eq_ok]⟩
  obtain ⟨rc, hrc⟩ := hreq
  rcases hst with h | h
  · subst h
    obtain ⟨ep, hep⟩ := hrest rfl
    refine ⟨.dict
      [("name", .str asset_name),
       ("description", .str ("Auto-discovered from " ++ "rest_api")),
       ("ingest", .dict [("type", .str "rest_api"), ("endpoint", ep),
         ("resource", (lookupKey ckvs "resource").getD (.str "data"))]),
       ("contract", .dict [("evolution", .str "evolve"),
         ("enforce_types", .bool true), ("required_columns", rc)]),
       ("transform", .str "SELECT * FROM \x7b\x7b source \x7d\x7d")],
      ?_, ?_,
      ⟨.dict [("type", .str "rest_api"), ("endpoint", ep),
         ("resource", (lookupKey ckvs "resource").getD (.str "data"))],
       ?_, ?_⟩,
      ?_, ⟨"SELECT * FROM \x7b\x7b source \x7d\x7d", ?_⟩⟩
    · simp [Discover.generate_msh_yaml, pyGetD_dict,
        pySub_dict_some _ _ _ hep, hrc, ok_bind, pure_eq_ok]
    · simp [dictLookup_dict, lookupKey]
    · simp [dictLookup_dict, lookupKey]
    · simp [dictLookup_dict, lookupKey]
    · simp [dictLookup_dict, lookupKey]
    · simp [dictLookup_dict, lookupKey]
  · subst h
    obtain ⟨⟨cr, hcr⟩, ⟨tb, htb⟩⟩ := hsqldb rfl
    refine ⟨.dict
      [("name", .str asset_name),
       ("description", .str ("Auto-discovered from " ++ "sql_database")),
       ("ingest", .dict [("type", .str "sql_database"),
         ("credentials", cr), ("table", tb)]),
       ("contract", .dict [("evolution", .str "evolve"),
         ("enforce_types", .bool true), ("required_columns", rc)]),
       ("transform", .str "SELECT * FROM \x7b\x7b source \x7d\x7d")],
      ?_, ?_,
      ⟨.dict [("type", .str "sql_database"), ("credentials", cr),
         ("table", tb)],
       ?_, ?_⟩,
      ?_, ⟨"SELECT * FROM \x7b\x7b source \x7d\x7d", ?_⟩⟩
    · simp [Discover.generate_msh_yaml, pyGetD_dict,
        pySub_dict_some _ _ _ hcr, pySub_dict_some _ _ _ htb,
        hrc, ok_bind, pure_eq_ok]
    · simp [dictLookup_dict, lookupKey]
    · simp [dictLookup_dict, lookupKey]
    · simp [dictLookup_dict, lookupKey]
    · simp [dictLookup_dict, lookupKey]
    · simp [dictLookup_dict, lookupKey]

/-- Witness for C7 at a concrete discovered REST source. -/
theorem C7_discovered_document_witness :
    ∃ d, Discover.generate_msh_yaml "users" "rest_api"
        (.dict [("endpoint", .str "https://api.example.com/users")])
        (.dict [("columns", .list [.str "id"])]) = .ok d ∧
      dictLookup d "name" = some (.str "users") ∧
      (∃ ing, dictLookup d "ingest" = some ing ∧
        dictLookup ing "type" = some (.str "rest_api")) ∧
      (dictLookup d "contract").isSome ∧
      (∃ q, dictLookup d "transform" = some (.str q)) :=
  C7_discovered_document "users" "rest_api"
    [("endpoint", .str "https://api.example.com/users")]
    [("columns", .list [.str "id"])]
    (Or.inl rfl) (fun _ => ⟨_, rfl⟩)
    (fun h => absurd h (by decide)) (Or.inr ⟨[.str "id"], rfl⟩)

/-- Counterexample to C2 as stated: the asset `c2data` declares an
explicit, non-empty ingest column list (the single entry `42`), yet the
extracted schema does not list that declared column — the entry is
skipped and the schema is instead inferred from the transform reference
`x`. -/
theorem C2_counterexample :
    dictLookup ((dictLookup c2data "ingest").getD .none) "columns" =
      some (.list [.int 42]) ∧
    Metadata.extract_schema c2data c2ast =
      .ok (.dict [("columns", .list [.dict
        [("name", .str "x"), ("type", .str "unknown"),
         ("description", .str "")]])]) :=
  ⟨rfl, rfl⟩

/-- C2 (amended): for an asset whose ingest block is a dictionary (or
absent) and whose AST has dictionary-shaped blocks and transform entries
(or absent ones) with a list of referenced columns, the extracted schema
columns are exactly `schemaColumnsSpec cols crs`: the declared columns
that are mappings or strings (with declared name/type/description and
defaults) when any survive, and otherwise the first twenty transform
column references, each with unknown type. -/
theorem C2_column_extraction
    (akvs ikvs astkvs bkvs tkvs : List (String × PyVal))
    (cols crs : List PyVal)
    (hi : lookupKey akvs "ingest" = some (.dict ikvs) ∨
          (lookupKey akvs "ingest" = Option.none ∧ ikvs = []))
    (hc : lookupKey ikvs "columns" = some (.list cols) ∨
          (lookupKey ikvs "columns" = Option.none ∧ cols = []))
    (hab : lookupKey astkvs "blocks" = some (.dict bkvs) ∨
           (lookupKey astkvs "blocks" = Option.none ∧ bkvs = []))
    (hat : lookupKey bkvs "transform" = some (.dict tkvs) ∨
           (lookupKey bkvs "transform" = Option.none ∧ tkvs = []))
    (hcr : lookupKey tkvs "columns_referenced" = some (.list crs) ∨
           (lookupKey tkvs "columns_referenced" = Option.none ∧ crs = [])) :
    Metadata.extract_schema (.dict akvs) (.dict astkvs) =
      .ok (.dict [("columns",
        .list (Metadata.schemaColumnsSpec cols crs))]) := by
  have hB : (lookupKey astkvs "blocks").getD (PyVal.dict []) = .dict bkvs := by
    rcases hab with h | ⟨h, rfl⟩ <;> simp [h]
  have hT : (lookupKey bkvs "transform").getD (PyVal.dict []) = .dict tkvs := by
    rcases hat with h | ⟨h, rfl⟩ <;> simp [h]
  have hCR : (lookupKey tkvs "columns_referenced").getD (PyVal.list []) =
      .list crs := by
    rcases hcr with h | ⟨h, rfl⟩ <;> simp [h]
  have hI : (lookupKey akvs "ingest").getD (PyVal.dict []) = .dict ikvs := by
    rcases hi with h | ⟨h, rfl⟩ <;> simp [h]
  have hfoldC := foldl_append_eq_filterMap Metadata.colFromIngest
    Metadata.colLoopStep colLoopStep_eq
  have hfoldI := foldl_append_eq_filterMap
    (fun c => some (Metadata.inferredCol c)) Metadata.inferLoopStep
    inferLoopStep_eq
  have hmap : ∀ l : List PyVal,
      l.filterMap (fun c => some (Metadata.inferredCol c)) =
        l.map Metadata.inferredCol := by
    intro l
    induction l with
    | nil => rfl
    | cons x xs ih => simp [List.filterMap_cons, ih]
  rcases hc with h | ⟨h, rfl⟩
  · cases cols with
    | nil =>
      cases crs with
      | nil =>
        simp [Metadata.extract_schema, Metadata.ingestColumns,
          Metadata.inferColumns, pyGetD_dict, hB, hT, hCR, hI, h,
          truthy, Metadata.schemaColumnsSpec, ok_bind, pure_eq_ok]
      | cons c cs =>
        simp [Metadata.extract_schema, Metadata.ingestColumns,
          Metadata.inferColumns, pyGetD_dict, hB, hT, hCR, hI, h,
          truthy, Metadata.schemaColumnsSpec, ok_bind, pure_eq_ok,
          pyTake_list, pyIter_list, hfoldI, hmap]
    | cons c0 cs0 =>
      by_cases hfe : ((c0 :: cs0).filterMap Metadata.colFromIngest).isEmpty
        = true
      · have h0 : (c0 :: cs0).filterMap Metadata.colFromIngest = [] := by
          simpa using hfe
        cases crs with
        | nil =>
          simp [Metadata.extract_schema, Metadata.ingestColumns,
          Metadata.inferColumns, pyGetD_dict, hB, hT, hCR, hI, h,
            truthy, Metadata.schemaColumnsSpec, ok_bind, pure_eq_ok,
            pyIter_list, hfoldC, h0]
        | cons c cs =>
          simp [Metadata.extract_schema, Metadata.ingestColumns,
          Metadata.inferColumns, pyGetD_dict, hB, hT, hCR, hI, h,
            truthy, Metadata.schemaColumnsSpec, ok_bind, pure_eq_ok,
            pyIter_list, pyTake_list, hfoldC, hfoldI, hmap, h0]
      · simp [Metadata.extract_schema, Metadata.ingestColumns,
          Metadata.inferColumns, pyGetD_dict, hB, hT, hCR, hI, h,
          truthy, Metadata.schemaColumnsSpec, ok_bind, pure_eq_ok,
          pyIter_list, hfoldC, hfe]
  · cases crs with
    | nil =>
      simp [Metadata.extract_schema, Metadata.ingestColumns,
          Metadata.inferColumns, pyGetD_dict, hB, hT, hCR, hI, h,
        truthy, Metadata.schemaColumnsSpec, ok_bind, pure_eq_ok]
    | cons c cs =>
      simp [Metadata.extract_schema, Metadata.ingestColumns,
          Metadata.inferColumns, pyGetD_dict, hB, hT, hCR, hI, h,
        truthy, Metadata.schemaColumnsSpec, ok_bind, pure_eq_ok,
        pyTake_list, pyIter_list, hfoldI, hmap]

/-- Witness for the amended C2 at a concrete asset declaring one mapping
column and one bare string column. -/
theorem C2_column_extraction_witness :
    Metadata.extract_schema c2wdata c2wast =
      .ok (.dict [("columns", .list (Metadata.schemaColumnsSpec
        [.dict [("name", .str "id"), ("type", .str "int")], .str "amount"]
        [.str "z"]))]) :=
  C2_column_extraction
    [("ingest", .dict [("columns", .list
      [.dict [("name", .str "id"), ("type", .str "int")], .str "amount"])])]
    [("columns", .list
      [.dict [("name", .str "id"), ("type", .str "int")], .str "amount"])]
    [("blocks", .dict [("transform", .dict
      [("columns_referenced", .list [.str "z"])])])]
    [("transform", .dict [("columns_referenced", .list [.str "z"])])]
    [("columns_referenced", .list [.str "z"])]
    [.dict [("name", .str "id"), ("type", .str "int")], .str "amount"]
    [.str "z"]
    (Or.inl rfl) (Or.inl rfl) (Or.inl rfl) (Or.inl rfl) (Or.inl rfl)

/-- Test extraction succeeds on every dictionary-shaped asset record. -/
theorem extract_tests_total (akvs : List (String × PyVal)) :
    ∃ v, Metadata.extract_tests (.dict akvs) = .ok v := by
  cases hv : lookupKey akvs "tests" with
  | none =>
    exact ⟨.list [], by
      simp [Metadata.extract_tests, pyGetD_dict, hv, ok_bind, pure_eq_ok]⟩
  | some v =>
    cases v with
    | list ts =>
      exact ⟨.list (ts.foldl Metadata.testLoopStep []), by
        simp [Metadata.extract_tests, pyGetD_dict, hv, ok_bind, pure_eq_ok]⟩
    | none => exact ⟨.list [], by
        simp [Metadata.extract_tests, pyGetD_dict, hv, ok_bind, pure_eq_ok]⟩
    | bool b => exact ⟨.list [], by
        simp [Metadata.extract_tests, pyGetD_dict, hv, ok_bind, pure_eq_ok]⟩
    | int n => exact ⟨.list [], by
        simp [Metadata.extract_tests, pyGetD_dict, hv, ok_bind, pure_eq_ok]⟩
    | str s => exact ⟨.list [], by
        simp [Metadata.extract_tests, pyGetD_dict, hv, ok_bind, pure_eq_ok]⟩
    | dict kvs2 => exact ⟨.list [], by
        simp [Metadata.extract_tests, pyGetD_dict, hv, ok_bind, pure_eq_ok]⟩

/-- Counterexample to C5 as stated: the record produced for a concrete
asset carries seven fields — the six the claim names plus `lineage` — so
it does not consist of exactly the fields id, path, blocks, schema,
tests and content_hash. -/
theorem C5_counterexample :
    (Metadata.extract_asset_metadata c5data (.str "abc123") c5ast).map
      pyDictKeys =
      .ok ["id", "path", "blocks", "schema", "tests", "lineage",
           "content_hash"] ∧
    "lineage" ∉ ["id", "path", "blocks", "schema", "tests",
        "content_hash"] :=
  ⟨rfl, by simp⟩

/-- C5 (amended): for every successfully parsed asset whose component
extractions succeed, the per-asset record consists of exactly the fields
id, path, blocks, schema, tests, lineage and content_hash, in that
order, with id, path and blocks taken from the generated AST and
content_hash equal to the fingerprint returned by the parser. -/
theorem C5_record_shape (akvs astkvs : List (String × PyVal))
    (ch iv pv bv sv lv tv : PyVal)
    (hS : Metadata.extract_schema (.dict akvs) (.dict astkvs) = .ok sv)
    (hL : Metadata.extract_lineage (.dict astkvs) = .ok lv)
    (hT : Metadata.extract_tests (.dict akvs) = .ok tv)
    (hiv : lookupKey astkvs "id" = some iv)
    (hpv : lookupKey astkvs "path" = some pv)
    (hbv : lookupKey astkvs "blocks" = some bv) :
    Metadata.extract_asset_metadata (.dict akvs) ch (.dict astkvs) =
      .ok (.dict
        [("id", iv), ("path", pv), ("blocks", bv), ("schema", sv),
         ("tests", tv), ("lineage", lv), ("content_hash", ch)]) := by
  simp [Metadata.extract_asset_metadata, hS, hL, hT,
    pySub_dict_some _ _ _ hiv, pySub_dict_some _ _ _ hpv,
    pySub_dict_some _ _ _ hbv, ok_bind, pure_eq_ok]

/-- Witness for the amended C5 at a concrete asset with one string
test. -/
theorem C5_record_shape_witness :
    Metadata.extract_asset_metadata c5data (.str "abc123") c5ast =
      .ok (.dict
        [("id", .str "a"), ("path", .str "models/a.msh"),
         ("blocks", .dict []),
         ("schema", .dict [("columns", .list [])]),
         ("tests", .list [.dict
           [("name", .str "not_null"), ("type", .str "unknown"),
            ("config", .dict []), ("description", .str "")]]),
         ("lineage", .dict [("upstream", .list []),
           ("downstream", .list [])]),
         ("content_hash", .str "abc123")]) :=
  C5_record_shape
    [("tests", .list [.str "not_null"])]
    [("id", .str "a"), ("path", .str "models/a.msh"), ("blocks", .dict [])]
    (.str "abc123") (.str "a") (.str "models/a.msh") (.dict [])
    (.dict [("columns", .list [])])
    (.dict [("upstream", .list []), ("downstream", .list [])])
    (.list [.dict
      [("name", .str "not_null"), ("type", .str "unknown"),
       ("config", .dict []), ("description", .str "")]])
    rfl rfl rfl rfl rfl rfl

theorem assetRecord_blocks (iv pv : PyVal) (bkvs : List (String × PyVal))
    (L : List PyVal) (tv lv ch : PyVal) :
    lookupKey (assetRecord iv pv bkvs L tv lv ch) "blocks" =
      some (.dict bkvs) := rfl

theorem assetRecord_schema (iv pv : PyVal) (bkvs : List (String × PyVal))
    (L : List PyVal) (tv lv ch : PyVal) :
    lookupKey (assetRecord iv pv bkvs L tv lv ch) "schema" =
      some (.dict [("columns", .list L)]) := rfl

theorem lookupKey_setKey_totalcols_cols (kvs : List (String × PyVal))
    (v : PyVal) :
    lookupKey (setKey kvs "_total_columns" v) "columns" =
      lookupKey kvs "columns" :=
  lookupKey_setKey_ne _ _ _ _ (by decide)

theorem lookupKey_setKey_truncated_cols (kvs : List (String × PyVal))
    (v : PyVal) :
    lookupKey (setKey kvs "_truncated" v) "columns" =
      lookupKey kvs "columns" :=
  lookupKey_setKey_ne _ _ _ _ (by decide)

theorem lookupKey_setKey_totalcols_trunc (kvs : List (String × PyVal))
    (v : PyVal) :
    lookupKey (setKey kvs "_total_columns" v) "_truncated" =
      lookupKey kvs "_truncated" :=
  lookupKey_setKey_ne _ _ _ _ (by decide)

/-- Counterexample to C1 as stated: for a concrete asset declaring sixty
columns, the schema exposed by the context pack carries no field named
`truncated` at all — the truncation marker and retained count are stored
under the underscored keys `_truncated` and `_total_columns`. -/
theorem C1_counterexample :
    ((Metadata.extract_asset_metadata c1data (.str "h1") c1ast).bind
        ContextPack.optimizeAsset).map
      (fun v => (schemaField v "truncated", schemaField v "_truncated",
        schemaField v "_total_columns",
        (schemaField v "columns").map pyListLength)) =
      .ok (Option.none, some (.bool true), some (.int 60), some 50) := rfl

/-- C1 (amended): for every asset whose ingest block declares sixty
columns, each a mapping or a string, and whose AST carries its id, path
and a dictionary blocks map (with a dictionary transform whose sql, if
any, is a string), the asset record's schema as optimized for the
context pack carries exactly fifty columns together with the truncation
marker `_truncated = true` and the retained original count
`_total_columns = 60`. -/
theorem C1_schema_truncation
    (akvs ikvs astkvs bkvs : List (String × PyVal))
    (cols : List PyVal) (ch iv pv : PyVal)
    (hi : lookupKey akvs "ingest" = some (.dict ikvs))
    (hcols : lookupKey ikvs "columns" = some (.list cols))
    (hlen : cols.length = 60)
    (hwf : ∀ c ∈ cols, (Metadata.colFromIngest c).isSome)
    (hid : lookupKey astkvs "id" = some iv)
    (hpath : lookupKey astkvs "path" = some pv)
    (hb : lookupKey astkvs "blocks" = some (.dict bkvs))
    (htr : lookupKey bkvs "transform" = Option.none ∨
      ∃ tkvs, lookupKey bkvs "transform" = some (.dict tkvs) ∧
        (lookupKey tkvs "sql" = Option.none ∨
         ∃ s, lookupKey tkvs "sql" = some (.str s))) :
    ∃ rec r,
      Metadata.extract_asset_metadata (.dict akvs) ch (.dict astkvs) =
        .ok rec ∧
      ContextPack.optimizeAsset rec = .ok r ∧
      (schemaField r "columns").map pyListLength = some 50 ∧
      schemaField r "_truncated" = some (.bool true) ∧
      schemaField r "_total_columns" = some (.int 60) := by
  have hce : cols.isEmpty = false := by
    cases cols with
    | nil => simp at hlen
    | cons a as => rfl
  have hfoldC := foldl_append_eq_filterMap Metadata.colFromIngest
    Metadata.colLoopStep colLoopStep_eq
  have hfm_len : (cols.filterMap Metadata.colFromIngest).length = 60 := by
    rw [length_filterMap_of_isSome _ cols hwf]
    exact hlen
  have hLe : (cols.filterMap Metadata.colFromIngest).isEmpty = false := by
    cases hL2 : cols.filterMap Metadata.colFromIngest with
    | nil => rw [hL2] at hfm_len; simp at hfm_len
    | cons a as => rfl
  have h50 : 50 < (cols.filterMap Metadata.colFromIngest).length := by
    rw [hfm_len]
    decide
  obtain ⟨tv, hT⟩ := extract_tests_total akvs
  have hlineage : ∃ lv, Metadata.extract_lineage (.dict astkvs) =
      .ok lv := by
    rcases htr with htn | ⟨tkvs, hts, _⟩
    · exact ⟨.dict [("upstream", .list []), ("downstream", .list [])], by
        simp [Metadata.extract_lineage, pyGetD_dict, hb, htn,
          lookupKey_nil, ok_bind, pure_eq_ok]⟩
    · exact ⟨.dict
        [("upstream", (lookupKey tkvs "dependencies").getD (.list [])),
         ("downstream", .list [])], by
        simp [Metadata.extract_lineage, pyGetD_dict, hb, hts, ok_bind,
          pure_eq_ok]⟩
  obtain ⟨lv, hL⟩ := hlineage
  have hS : Metadata.extract_schema (.dict akvs) (.dict astkvs) =
      .ok (.dict [("columns",
        .list (cols.filterMap Metadata.colFromIngest))]) := by
    rcases htr with htn | ⟨tkvs, hts, _⟩
    · simp [Metadata.extract_schema, Metadata.ingestColumns,
        Metadata.inferColumns, pyGetD_dict, hb, htn, lookupKey_nil, hi,
        hcols, truthy, hce, pyIter_list, hfoldC, hLe, ok_bind, pure_eq_ok]
    · simp [Metadata.extract_schema, Metadata.ingestColumns,
        Metadata.inferColumns, pyGetD_dict, hb, hts, hi, hcols, truthy,
        hce, pyIter_list, hfoldC, hLe, ok_bind, pure_eq_ok]
  have hRec : Metadata.extract_asset_metadata (.dict akvs) ch
      (.dict astkvs) = .ok (.dict (assetRecord iv pv bkvs
        (cols.filterMap Metadata.colFromIngest) tv lv ch)) := by
    simp [Metadata.extract_asset_metadata, assetRecord, hS, hL, hT,
      pySub_dict_some _ _ _ hid, pySub_dict_some _ _ _ hpath,
      pySub_dict_some _ _ _ hb, ok_bind, pure_eq_ok]
  refine ⟨.dict (assetRecord iv pv bkvs
    (cols.filterMap Metadata.colFromIngest) tv lv ch), ?_⟩
  cases hres : ContextPack.optimizeAsset (.dict (assetRecord iv pv bkvs
      (cols.filterMap Metadata.colFromIngest) tv lv ch)) with
  | error e =>
    exfalso
    rcases htr with htn | ⟨tkvs, hts, hsn | ⟨s, hss⟩⟩
    · simp only [ContextPack.optimizeAsset, pyGetD_dict, pySet_dict,
        pyTake_list, pyTake_str, pyLen_list, pyLen_str, pyAdd_str,
        ok_bind, pure_eq_ok, Option.getD_some, Option.getD_none,
        dictLookup_dict, Option.isSome_some, if_true, if_false,
        assetRecord_blocks, assetRecord_schema, lookupKey_cons_self, htn, lookupKey_nil,
        String.length_empty, Nat.not_lt_zero, h50] at hres
      exact Except.noConfusion hres
    · simp only [ContextPack.optimizeAsset, pyGetD_dict, pySet_dict,
        pyTake_list, pyTake_str, pyLen_list, pyLen_str, pyAdd_str,
        ok_bind, pure_eq_ok, Option.getD_some, Option.getD_none,
        dictLookup_dict, Option.isSome_some, if_true, if_false,
        assetRecord_blocks, assetRecord_schema, lookupKey_cons_self, hts, hsn,
        String.length_empty, Nat.not_lt_zero, h50] at hres
      exact Except.noConfusion hres
    · by_cases hsl : 2000 < s.length
      all_goals
        simp only [ContextPack.optimizeAsset, pyGetD_dict, pySet_dict,
          pyTake_list, pyTake_str, pyLen_list, pyLen_str, pyAdd_str,
          ok_bind, pure_eq_ok, Option.getD_some, Option.getD_none,
          dictLookup_dict, Option.isSome_some, if_true, if_false,
          assetRecord_blocks, assetRecord_schema, lookupKey_cons_self,
          lookupKey_setKey_schema_blocks, hts, hss, hsl, h50,
          pySub_dict_some _ _ _ (assetRecord_blocks iv pv bkvs
            (cols.filterMap Metadata.colFromIngest) tv lv ch),
          pySub_dict_some _ _ _ hts] at hres
      all_goals exact Except.noConfusion hres
  | ok r =>
    refine ⟨r, hRec, rfl, ?_, ?_, ?_⟩
    all_goals
      rcases htr with htn | ⟨tkvs, hts, hsn | ⟨s, hss⟩⟩
    · simp only [ContextPack.optimizeAsset, pyGetD_dict, pySet_dict,
        pyTake_list, pyTake_str, pyLen_list, pyLen_str, pyAdd_str,
        ok_bind, pure_eq_ok, Option.getD_some, Option.getD_none,
        dictLookup_dict, Option.isSome_some, if_true, if_false,
        assetRecord_blocks, assetRecord_schema, lookupKey_cons_self, htn, lookupKey_nil,
        String.length_empty, Nat.not_lt_zero, h50,
        Except.ok.injEq] at hres
      subst hres
      simp [schemaField, dictLookup_dict, assetRecord,
        lookupKey_setKey_self, lookupKey_setKey_totalcols_cols,
        lookupKey_setKey_truncated_cols, setKey, lookupKey,
        pyListLength, List.length_take, hfm_len]
    · simp only [ContextPack.optimizeAsset, pyGetD_dict, pySet_dict,
        pyTake_list, pyTake_str, pyLen_list, pyLen_str, pyAdd_str,
        ok_bind, pure_eq_ok, Option.getD_some, Option.getD_none,
        dictLookup_dict, Option.isSome_some, if_true, if_false,
        assetRecord_blocks, assetRecord_schema, lookupKey_cons_self, hts, hsn,
        String.length_empty, Nat.not_lt_zero, h50,
        Except.ok.injEq] at hres
      subst hres
      simp [schemaField, dictLookup_dict, assetRecord,
        lookupKey_setKey_self, lookupKey_setKey_totalcols_cols,
        lookupKey_setKey_truncated_cols, setKey, lookupKey,
        pyListLength, List.length_take, hfm_len]
    · by_cases hsl : 2000 < s.length
      all_goals
        simp only [ContextPack.optimizeAsset, pyGetD_dict, pySet_dict,
          pyTake_list, pyTake_str, pyLen_list, pyLen_str, pyAdd_str,
          ok_bind, pure_eq_ok, Option.getD_some, Option.getD_none,
          dictLookup_dict, Option.isSome_some, if_true, if_false,
          assetRecord_blocks, assetRecord_schema, lookupKey_cons_self,
          lookupKey_setKey_schema_blocks, hts, hss, hsl, h50,
          pySub_dict_some _ _ _ (assetRecord_blocks iv pv bkvs
            (cols.filterMap Metadata.colFromIngest) tv lv ch),
          pySub_dict_some _ _ _ hts, Except.ok.injEq] at hres
      all_goals subst hres
      all_goals
        simp [schemaField, dictLookup_dict, assetRecord,
          lookupKey_setKey_self, lookupKey_setKey_totalcols_cols,
          lookupKey_setKey_truncated_cols,
          lookupKey_setKey_schema_blocks, setKey, lookupKey,
          pyListLength, List.length_take, hfm_len]
    · simp only [ContextPack.optimizeAsset, pyGetD_dict, pySet_dict,
        pyTake_list, pyTake_str, pyLen_list, pyLen_str, pyAdd_str,
        ok_bind, pure_eq_ok, Option.getD_some, Option.getD_none,
        dictLookup_dict, Option.isSome_some, if_true, if_false,
        assetRecord_blocks, assetRecord_schema, lookupKey_cons_self, htn, lookupKey_nil,
        String.length_empty, Nat.not_lt_zero, h50,
        Except.ok.injEq] at hres
      subst hres
      simp [schemaField, dictLookup_dict, assetRecord,
        lookupKey_setKey_self, lookupKey_setKey_totalcols_cols,
        lookupKey_setKey_truncated_cols, setKey, lookupKey,
        pyListLength, List.length_take, hfm_len]
    · simp only [ContextPack.optimizeAsset, pyGetD_dict, pySet_dict,
        pyTake_list, pyTake_str, pyLen_list, pyLen_str, pyAdd_str,
        ok_bind, pure_eq_ok, Option.getD_some, Option.getD_none,
        dictLookup_dict, Option.isSome_some, if_true, if_false,
        assetRecord_blocks, assetRecord_schema, lookupKey_cons_self, hts, hsn,
        String.length_empty, Nat.not_lt_zero, h50,
        Except.ok.injEq] at hres
      subst hres
      simp [schemaField, dictLookup_dict, assetRecord,
        lookupKey_setKey_self, lookupKey_setKey_totalcols_cols,
        lookupKey_setKey_truncated_cols, setKey, lookupKey,
        pyListLength, List.length_take, hfm_len]
    · by_cases hsl : 2000 < s.length
      all_goals
        simp only [ContextPack.optimizeAsset, pyGetD_dict, pySet_dict,
          pyTake_list, pyTake_str, pyLen_list, pyLen_str, pyAdd_str,
          ok_bind, pure_eq_ok, Option.getD_some, Option.getD_none,
          dictLookup_dict, Option.isSome_some, if_true, if_false,
          assetRecord_blocks, assetRecord_schema, lookupKey_cons_self,
          lookupKey_setKey_schema_blocks, hts, hss, hsl, h50,
          pySub_dict_some _ _ _ (assetRecord_blocks iv pv bkvs
            (cols.filterMap Metadata.colFromIngest) tv lv ch),
          pySub_dict_some _ _ _ hts, Except.ok.injEq] at hres
      all_goals subst hres
      all_goals
        simp [schemaField, dictLookup_dict, assetRecord,
          lookupKey_setKey_self, lookupKey_setKey_totalcols_cols,
          lookupKey_setKey_truncated_cols,
          lookupKey_setKey_schema_blocks, setKey, lookupKey,
          pyListLength, List.length_take, hfm_len]
    · simp only [ContextPack.optimizeAsset, pyGetD_dict, pySet_dict,
        pyTake_list, pyTake_str, pyLen_list, pyLen_str, pyAdd_str,
        ok_bind, pure_eq_ok, Option.getD_some, Option.getD_none,
        dictLookup_dict, Option.isSome_some, if_true, if_false,
        assetRecord_blocks, assetRecord_schema, lookupKey_cons_self, htn, lookupKey_nil,
        String.length_empty, Nat.not_lt_zero, h50,
        Except.ok.injEq] at hres
      subst hres
      simp [schemaField, dictLookup_dict, assetRecord,
        lookupKey_setKey_self, lookupKey_setKey_totalcols_cols,
        lookupKey_setKey_truncated_cols, setKey, lookupKey,
        pyListLength, List.length_take, hfm_len]
    · simp only [ContextPack.optimizeAsset, pyGetD_dict, pySet_dict,
        pyTake_list, pyTake_str, pyLen_list, pyLen_str, pyAdd_str,
        ok_bind, pure_eq_ok, Option.getD_some, Option.getD_none,
        dictLookup_dict, Option.isSome_some, if_true, if_false,
        assetRecord_blocks, assetRecord_schema, lookupKey_cons_self, hts, hsn,
        String.length_empty, Nat.not_lt_zero, h50,
        Except.ok.injEq] at hres
      subst hres
      simp [schemaField, dictLookup_dict, assetRecord,
        lookupKey_setKey_self, lookupKey_setKey_totalcols_cols,
        lookupKey_setKey_truncated_cols, setKey, lookupKey,
        pyListLength, List.length_take, hfm_len]
    · by_cases hsl : 2000 < s.length
      all_goals
        simp only [ContextPack.optimizeAsset, pyGetD_dict, pySet_dict,
          pyTake_list, pyTake_str, pyLen_list, pyLen_str, pyAdd_str,
          ok_bind, pure_eq_ok, Option.getD_some, Option.getD_none,
          dictLookup_dict, Option.isSome_some, if_true, if_false,
          assetRecord_blocks, assetRecord_schema, lookupKey_cons_self,
          lookupKey_setKey_schema_blocks, hts, hss, hsl, h50,
          pySub_dict_some _ _ _ (assetRecord_blocks iv pv bkvs
            (cols.filterMap Metadata.colFromIngest) tv lv ch),
          pySub_dict_some _ _ _ hts, Except.ok.injEq] at hres
      all_goals subst hres
      all_goals
        simp [schemaField, dictLookup_dict, assetRecord,
          lookupKey_setKey_self, lookupKey_setKey_totalcols_cols,
          lookupKey_setKey_truncated_cols,
          lookupKey_setKey_schema_blocks, setKey, lookupKey,
          pyListLength, List.length_take, hfm_len]

/-- Witness for the amended C1 at the concrete sixty-column asset. -/
theorem C1_schema_truncation_witness :
    ∃ rec r,
      Metadata.extract_asset_metadata c1data (.str "h1") c1ast = .ok rec ∧
      ContextPack.optimizeAsset rec = .ok r ∧
      (schemaField r "columns").map pyListLength = some 50 ∧
      schemaField r "_truncated" = some (.bool true) ∧
      schemaField r "_total_columns" = some (.int 60) :=
  C1_schema_truncation
    [("ingest", .dict [("columns", .list c1cols)])]
    [("columns", .list c1cols)]
    [("id", .str "orders"), ("path", .str "models/orders.msh"),
     ("blocks", .dict [("transform", .dict
       [("sql", .str "SELECT 1"), ("dependencies", .list [])])])]
    [("transform", .dict
      [("sql", .str "SELECT 1"), ("dependencies", .list [])])]
    c1cols (.str "h1") (.str "orders") (.str "models/orders.msh")
    rfl rfl (by simp [c1cols])
    (by
      intro c hc
      simp only [c1cols, List.mem_map] at hc
      obtain ⟨i, _, rfl⟩ := hc
      rfl)
    rfl rfl rfl
    (Or.inr ⟨[("sql", .str "SELECT 1"), ("dependencies", .list [])], rfl,
      Or.inr ⟨"SELECT 1", rfl⟩⟩)

/-- C3: in `generate_context_pack`, for each artifact kind among
manifest, lineage and schemas — and tests when include_tests is set —
the corresponding `generate_*` operation is invoked exactly when the
cache load returned a falsy (empty/absent) artifact, and on a cache hit
the cached artifact itself is what the call proceeds with, unchanged. -/
theorem C3_generate_iff_cache_miss (env : ContextPack.CPEnv)
    (asset_id : Option String) (include_tests include_history : Bool)
    (user_request : Option String) :
    ((ContextPack.generate_context_pack env asset_id include_tests
        include_history user_request).1.calledGenManifest
      = !truthy env.cachedManifest) ∧
    ((ContextPack.generate_context_pack env asset_id include_tests
        include_history user_request).1.calledGenLineage
      = !truthy env.cachedLineage) ∧
    ((ContextPack.generate_context_pack env asset_id include_tests
        include_history user_request).1.calledGenSchemas
      = !truthy env.cachedSchemas) ∧
    ((ContextPack.generate_context_pack env asset_id include_tests
        include_history user_request).1.calledGenTestsIndex
      = (include_tests && !truthy env.cachedTests)) ∧
    (truthy env.cachedManifest = true →
      (ContextPack.generate_context_pack env asset_id include_tests
        include_history user_request).1.usedManifest
        = env.cachedManifest) ∧
    (truthy env.cachedManifest = false →
      (ContextPack.generate_context_pack env asset_id include_tests
        include_history user_request).1.usedManifest = env.genManifest) ∧
    (truthy env.cachedLineage = true →
      (ContextPack.generate_context_pack env asset_id include_tests
        include_history user_request).1.usedLineage
        = env.cachedLineage) ∧
    (truthy env.cachedLineage = false →
      (ContextPack.generate_context_pack env asset_id include_tests
        include_history user_request).1.usedLineage = env.genLineage) ∧
    (truthy env.cachedSchemas = true →
      (ContextPack.generate_context_pack env asset_id include_tests
        include_history user_request).1.usedSchemas
        = env.cachedSchemas) ∧
    (truthy env.cachedSchemas = false →
      (ContextPack.generate_context_pack env asset_id include_tests
        include_history user_request).1.usedSchemas = env.genSchemas) ∧
    (include_tests = true → truthy env.cachedTests = true →
      (ContextPack.generate_context_pack env asset_id include_tests
        include_history user_request).1.usedTestsData
        = some env.cachedTests) ∧
    (include_tests = true → truthy env.cachedTests = false →
      (ContextPack.generate_context_pack env asset_id include_tests
        include_history user_request).1.usedTestsData
        = some env.genTestsIndex) ∧
    (include_tests = false →
      (ContextPack.generate_context_pack env asset_id include_tests
        include_history user_request).1.usedTestsData = Option.none) := by
  refine ⟨rfl, rfl, rfl, rfl, ?_, ?_, ?_, ?_, ?_, ?_, ?_, ?_, ?_⟩ <;>
    intro h
  · simp [ContextPack.generate_context_pack, ContextPack.loadOrGen, h]
  · simp [ContextPack.generate_context_pack, ContextPack.loadOrGen, h]
  · simp [ContextPack.generate_context_pack, ContextPack.loadOrGen, h]
  · simp [ContextPack.generate_context_pack, ContextPack.loadOrGen, h]
  · simp [ContextPack.generate_context_pack, ContextPack.loadOrGen, h]
  · simp [ContextPack.generate_context_pack, ContextPack.loadOrGen, h]
  · intro h2
    simp [ContextPack.generate_context_pack, ContextPack.loadOrGen, h, h2]
  · intro h2
    simp [ContextPack.generate_context_pack, ContextPack.loadOrGen, h, h2]
  · simp [ContextPack.generate_context_pack, ContextPack.loadOrGen, h]

/-- Witness for C3 at a concrete environment whose cached manifest and
schemas are truthy while lineage and tests are absent, with tests
requested: only the lineage and tests generators are invoked, and the
cached manifest is the one used. -/
theorem C3_generate_iff_cache_miss_witness :
    (ContextPack.generate_context_pack c3env Option.none true false
        Option.none).1.calledGenManifest = false ∧
    (ContextPack.generate_context_pack c3env Option.none true false
        Option.none).1.calledGenLineage = true ∧
    (ContextPack.generate_context_pack c3env Option.none true false
        Option.none).1.calledGenSchemas = false ∧
    (ContextPack.generate_context_pack c3env Option.none true false
        Option.none).1.calledGenTestsIndex = true ∧
    (ContextPack.generate_context_pack c3env Option.none true false
        Option.none).1.usedManifest = c3env.cachedManifest := by
  have h := C3_generate_iff_cache_miss c3env Option.none true false
    Option.none
  refine ⟨?_, ?_, ?_, ?_, h.2.2.2.2.1 rfl⟩
  · rw [h.1]; rfl
  · rw [h.2.1]; rfl
  · rw [h.2.2.1]; rfl
  · rw [h.2.2.2.1]; rfl

theorem optimize_assets_nil :
    ContextPack.optimize_assets (.list []) = .ok (.list []) := rfl

/-- Optimizing a tests mapping against an empty asset list keeps no
entry. -/
theorem optimize_tests_empty_assets (tkvs : List (String × PyVal)) :
    ContextPack.optimize_tests (.dict tkvs) (.list []) = .ok (.list []) := by
  induction tkvs with
  | nil => rfl
  | cons kv rest ih =>
    simp only [ContextPack.optimize_tests, pyIter_list, ok_bind,
      pure_eq_ok, List.mapM_nil, List.foldlM_nil, List.foldlM_cons,
      PyVal.pySetOf, PyVal.pyMem, hashable, List.any_nil, if_true,
      if_false, Bool.false_eq_true] at ih ⊢
    exact ih

/-- The search for a target asset yields nothing when every asset is a
dictionary whose id differs from the requested one. -/
theorem findTarget_none (l : List PyVal) (aid : String)
    (h : ∀ a ∈ l, ∃ kvs, a = .dict kvs ∧
      pyEq ((lookupKey kvs "id").getD .none) (.str aid) = false) :
    ContextPack.findTarget l aid = .ok Option.none := by
  induction l with
  | nil => rfl
  | cons a rest ih =>
    obtain ⟨kvs, rfl, hpe⟩ := h _ (List.mem_cons_self _ _)
    simp only [ContextPack.findTarget, pyGetD_dict, ok_bind, hpe,
      Bool.false_eq_true, if_false]
    exact ih fun x hx => h x (List.mem_cons_of_mem _ hx)

/-- Adding the optional tests key succeeds against an empty asset list
and touches only the `tests` key. -/
theorem addTests_props (pkvs : List (String × PyVal))
    (tests : Option PyVal)
    (hT : ∀ t, tests = some t → truthy t = true → ∃ t2, t = .dict t2) :
    ∃ qkvs, ContextPack.addTests (.dict pkvs) (.list []) tests =
      .ok (.dict qkvs) ∧
      ∀ p, p ≠ "tests" → lookupKey qkvs p = lookupKey pkvs p := by
  cases tests with
  | none => exact ⟨pkvs, rfl, fun p _ => rfl⟩
  | some t =>
    by_cases htr : truthy t = true
    · obtain ⟨t2, rfl⟩ := hT t rfl htr
      refine ⟨setKey pkvs "tests" (.list []), ?_, ?_⟩
      · simp [ContextPack.addTests, htr, optimize_tests_empty_assets,
          pySet_dict, ok_bind, pure_eq_ok]
      · intro p hp
        exact lookupKey_setKey_ne _ _ _ _ hp
    · have htr2 : truthy t = false := by simpa using htr
      exact ⟨pkvs, by simp [ContextPack.addTests, htr2, pure_eq_ok],
        fun p _ => rfl⟩

/-- Adding the optional glossary key succeeds and touches only the
`glossary_terms` key. -/
theorem addGlossary_props (pkvs : List (String × PyVal))
    (gts : List PyVal) :
    ∃ qkvs, ContextPack.addGlossary (.dict pkvs) gts = .ok (.dict qkvs) ∧
      ∀ p, p ≠ "glossary_terms" → lookupKey qkvs p = lookupKey pkvs p := by
  by_cases hg : gts.isEmpty = true
  · exact ⟨pkvs, by simp [ContextPack.addGlossary, hg, pure_eq_ok],
      fun p _ => rfl⟩
  · have hg2 : gts.isEmpty = false := by simpa using hg
    exact ⟨setKey pkvs "glossary_terms" (.list gts),
      by simp [ContextPack.addGlossary, hg2, pySet_dict],
      fun p hp => lookupKey_setKey_ne _ _ _ _ hp⟩

/-- Adding the optional user_request key succeeds and touches only the
`user_request` key. -/
theorem addUserRequest_props (pkvs : List (String × PyVal))
    (ur : Option String) :
    ∃ qkvs, ContextPack.addUserRequest (.dict pkvs) ur =
      .ok (.dict qkvs) ∧
      ∀ p, p ≠ "user_request" → lookupKey qkvs p = lookupKey pkvs p := by
  cases ur with
  | none => exact ⟨pkvs, rfl, fun p _ => rfl⟩
  | some s =>
    by_cases hs : s = ""
    · exact ⟨pkvs,
        by simp [ContextPack.addUserRequest, hs, pure_eq_ok],
        fun p _ => rfl⟩
    · exact ⟨setKey pkvs "user_request" (.str s),
        by simp [ContextPack.addUserRequest, hs, pySet_dict],
        fun p hp => lookupKey_setKey_ne _ _ _ _ hp⟩

/-- Assembling a pack over a manifest whose assets all miss the requested
(non-empty) asset id yields an empty assets list with the project,
lineage, metrics and policies fields present. -/
theorem assemblePack_unknown_id (mkvs lkvs : List (String × PyVal))
    (assetList : List PyVal) (aid : String) (testsOpt : Option PyVal)
    (gts : List PyVal) (ur : Option String)
    (haid : aid ≠ "")
    (hassets : lookupKey mkvs "assets" = some (.list assetList) ∨
      (lookupKey mkvs "assets" = Option.none ∧ assetList = []))
    (hnomatch : ∀ a ∈ assetList, ∃ kvs, a = .dict kvs ∧
      pyEq ((lookupKey kvs "id").getD .none) (.str aid) = false)
    (hcond : ∀ t, testsOpt = some t → truthy t = true →
      ∃ t2, t = .dict t2) :
    ∃ pack, ContextPack.assemblePack (.dict mkvs) (.dict lkvs)
        (some aid) testsOpt gts ur = .ok pack ∧
      dictLookup pack "assets" = some (.list []) ∧
      (dictLookup pack "project").isSome ∧
      dictLookup pack "lineage" =
        some ((lookupKey lkvs "edges").getD (.list [])) ∧
      dictLookup pack "metrics" = some (.list []) ∧
      dictLookup pack "policies" = some (.list []) := by
  have hft := findTarget_none assetList aid hnomatch
  have hsel : ∀ lv2 : PyVal,
      ContextPack.selectAssets ((lookupKey mkvs "assets").getD (.list []))
        lv2 (some aid) = .ok (.list []) := by
    intro lv2
    rcases hassets with ha | ⟨ha, rfl⟩
    · simp [ContextPack.selectAssets, haid, ha, pyIter_list, hft,
        ok_bind, pure_eq_ok]
    · simp [ContextPack.selectAssets, haid, ha, pyIter_list,
        ContextPack.findTarget, ok_bind, pure_eq_ok]
  obtain ⟨q1kvs, hq1, hq1p⟩ := addTests_props
    [("project", (lookupKey mkvs "project").getD (.dict [])),
     ("assets", .list []),
     ("lineage", (lookupKey lkvs "edges").getD (.list []))]
    testsOpt hcond
  obtain ⟨q2kvs, hq2, hq2p⟩ := addGlossary_props q1kvs gts
  obtain ⟨q3kvs, hq3, hq3p⟩ := addUserRequest_props q2kvs ur
  have hchain : ∀ p, p ≠ "tests" → p ≠ "glossary_terms" →
      p ≠ "user_request" → p ≠ "metrics" → p ≠ "policies" →
      lookupKey (setKey (setKey q3kvs "metrics" (.list []))
        "policies" (.list [])) p =
      lookupKey [("project", (lookupKey mkvs "project").getD (.dict [])),
        ("assets", PyVal.list []),
        ("lineage", (lookupKey lkvs "edges").getD (.list []))] p := by
    intro p h1 h2 h3 h4 h5
    rw [lookupKey_setKey_ne _ _ _ _ h5, lookupKey_setKey_ne _ _ _ _ h4,
      hq3p p h3, hq2p p h2, hq1p p h1]
  refine ⟨.dict (setKey (setKey q3kvs "metrics" (.list []))
    "policies" (.list [])), ?_, ?_, ?_, ?_, ?_, ?_⟩
  · simp [ContextPack.assemblePack, pyGetD_dict, hsel,
      optimize_assets_nil, hq1, hq2, hq3, pySet_dict, ok_bind,
      pure_eq_ok]
  · rw [dictLookup_dict, hchain "assets" (by decide) (by decide)
      (by decide) (by decide) (by decide)]
    rfl
  · rw [dictLookup_dict, hchain "project" (by decide) (by decide)
      (by decide) (by decide) (by decide)]
    rfl
  · rw [dictLookup_dict, hchain "lineage" (by decide) (by decide)
      (by decide) (by decide) (by decide)]
    rfl
  · rw [dictLookup_dict,
      lookupKey_setKey_ne _ _ _ _ (by decide : "metrics" ≠ "policies"),
      lookupKey_setKey_self]
  · rw [dictLookup_dict, lookupKey_setKey_self]

/-- Counterexample to C9 as stated: the manifest holds a single asset
with id `a`, so the empty-string asset id matches no asset id, yet the
call returns the full asset list rather than an empty one — a falsy
asset id disables filtering altogether. -/
theorem C9_counterexample :
    (ContextPack.generate_context_pack c9env (some "") false false
        Option.none).2.map (fun pack => dictLookup pack "assets") =
      .ok (some (.list [.dict [("id", .str "a")]])) ∧
    ("a" : String) ≠ "" :=
  ⟨rfl, by decide⟩

/-- C9 (amended): for every environment whose manifest artifact is a
dictionary with a list of dictionary-shaped assets and whose lineage
artifact is a dictionary (and, when tests are requested, whose tests
artifact is a dictionary with a dictionary-shaped truthy tests entry),
and every NON-EMPTY asset id that matches no asset id in the manifest,
`generate_context_pack` does not raise: it returns a pack whose assets
list is empty while the project, lineage, metrics and policies fields
are present; an empty-string asset id is falsy and instead disables
filtering (see the counterexample). -/
theorem C9_unknown_asset_id (env : ContextPack.CPEnv) (aid : String)
    (include_tests include_history : Bool) (user_request : Option String)
    (mkvs lkvs : List (String × PyVal)) (assetList : List PyVal)
    (haid : aid ≠ "")
    (hm : ContextPack.loadOrGen env.cachedManifest env.genManifest =
      .dict mkvs)
    (hl : ContextPack.loadOrGen env.cachedLineage env.genLineage =
      .dict lkvs)
    (hassets : lookupKey mkvs "assets" = some (.list assetList) ∨
      (lookupKey mkvs "assets" = Option.none ∧ assetList = []))
    (hnomatch : ∀ a ∈ assetList, ∃ kvs, a = .dict kvs ∧
      pyEq ((lookupKey kvs "id").getD .none) (.str aid) = false)
    (htests : include_tests = true →
      ∃ tkvs, ContextPack.loadOrGen env.cachedTests env.genTestsIndex =
        .dict tkvs ∧
        ∀ tval, lookupKey tkvs "tests" = some tval →
          truthy tval = true → ∃ t2, tval = .dict t2) :
    ∃ pack, (ContextPack.generate_context_pack env (some aid)
        include_tests include_history user_request).2 = .ok pack ∧
      dictLookup pack "assets" = some (.list []) ∧
      (dictLookup pack "project").isSome ∧
      dictLookup pack "lineage" =
        some ((lookupKey lkvs "edges").getD (.list [])) ∧
      dictLookup pack "metrics" = some (.list []) ∧
      dictLookup pack "policies" = some (.list []) := by
  cases include_tests with
  | false =>
    obtain ⟨pack, hpk, hprops⟩ := assemblePack_unknown_id mkvs lkvs
      assetList aid Option.none env.glossaryTerms user_request haid
      hassets hnomatch (fun t ht => absurd ht (by simp))
    refine ⟨pack, ?_, hprops⟩
    simp only [ContextPack.generate_context_pack, Bool.false_eq_true,
      if_false, ok_bind, pure_eq_ok]
    rw [hm, hl]
    exact hpk
  | true =>
    obtain ⟨tkvs, htd, htv⟩ := htests rfl
    have hcond : ∀ tv2,
        some ((lookupKey tkvs "tests").getD (PyVal.dict [])) = some tv2 →
        truthy tv2 = true → ∃ t2, tv2 = .dict t2 := by
      intro tv2 heq htr
      injection heq with he
      subst he
      cases hte : lookupKey tkvs "tests" with
      | none => exact ⟨[], by simp [hte]⟩
      | some tval =>
        rw [hte] at htr
        simp only [Option.getD_some] at htr ⊢
        exact htv tval hte htr
    obtain ⟨pack, hpk, hprops⟩ := assemblePack_unknown_id mkvs lkvs
      assetList aid (some ((lookupKey tkvs "tests").getD (.dict [])))
      env.glossaryTerms user_request haid hassets hnomatch hcond
    refine ⟨pack, ?_, hprops⟩
    simp only [ContextPack.generate_context_pack, if_true]
    rw [hm, hl, htd]
    simp only [pyGetD_dict, ok_bind, pure_eq_ok]
    exact hpk

/-- Witness for the amended C9 at a concrete environment and the unknown
asset id `zzz`. -/
theorem C9_unknown_asset_id_witness :
    ∃ pack, (ContextPack.generate_context_pack c9wenv (some "zzz")
        true false Option.none).2 = .ok pack ∧
      dictLookup pack "assets" = some (.list []) ∧
      (dictLookup pack "project").isSome ∧
      dictLookup pack "lineage" =
        some ((lookupKey [("edges", PyVal.list [])] "edges").getD
          (.list [])) ∧
      dictLookup pack "metrics" = some (.list []) ∧
      dictLookup pack "policies" = some (.list []) :=
  C9_unknown_asset_id c9wenv "zzz" true false Option.none
    [("project", .dict [("name", .str "demo")]),
     ("assets", .list [.dict [("id", .str "a")]])]
    [("edges", .list [])]
    [.dict [("id", .str "a")]]
    (by decide) rfl rfl (Or.inl rfl)
    (by
      intro a ha
      rw [List.mem_singleton] at ha
      subst ha
      exact ⟨[("id", .str "a")], rfl, rfl⟩)
    (fun _ => ⟨[("tests", .dict [("a", .dict [])])], rfl,
      fun tval hte htr => by
        simp [lookupKey] at hte
        exact ⟨[("a", .dict [])], hte.symm⟩⟩)
